import Mathlib

/-!
Verification development for the PDB-structure parser
(`mdtraj/formats/pdb/pdbstructure.py`).

The Python module is shallowly embedded: Python strings are lists of
characters, Python dicts are insertion-ordered association lists, object
references held in the hierarchy's "current" pointers are represented as
indices into the owning list, exceptions are `Except PyErr`, and calls to
`warnings.warn` are collected into an explicit list of diagnostics.
Floating-point fields (coordinates, occupancy, temperature factor, unit
cell) are kept as their validated raw field text: the module only checks
that `float(...)` succeeds and re-emits the values on write, and no
verified property inspects their numeric value, so their text is carried
through unchanged while parse failures (`ValueError`) are modelled
faithfully.
-/

set_option maxRecDepth 4000

deriving instance DecidableEq for Except

namespace PdbSpec

/-- Python runtime errors that the embedded code can raise. -/
inductive PyErr where
  | attributeError
  | indexError
  | keyError
  | typeError
  | assertionError
  | valueError
  | overflowError
  deriving DecidableEq, Repr

/-- Diagnostics emitted through the `warnings.warn` channel. -/
inductive Warn where
  | residueNameChange
  | overflowGuessAtom
  | overflowGuessResidue
  | chargeParse
  deriving DecidableEq, Repr

/-- Python strings are modelled as lists of characters. -/
abbrev Str := List Char

/-- Coerce a Lean string literal into the `Str` model. -/
def str (s : String) : Str := s.toList

/-- Python slice `s[a:b]` (for `a ≤ b`), with Python's clamping behaviour. -/
def pySlice (a b : Nat) (s : Str) : Str := (s.drop a).take (b - a)

/-- Python indexing `s[i]`: `IndexError` when out of range. -/
def pyCharAt (i : Nat) (s : Str) : Except PyErr Char :=
  match s.get? i with
  | some c => .ok c
  | none => .error .indexError

/-- Whitespace characters recognised by Python's `str.strip()` / `str.split()`. -/
def isPySpace (c : Char) : Bool :=
  c == ' ' || c == '\t' || c == '\n' || c == '\r' || c == '\x0b' || c == '\x0c'

def pyStripLeft (s : Str) : Str := s.dropWhile isPySpace

def pyStripRight (s : Str) : Str := (s.reverse.dropWhile isPySpace).reverse

/-- Python `s.strip()`. -/
def pyStrip (s : Str) : Str := pyStripRight (pyStripLeft s)

/-- Python `s.rstrip(c)` for a single-character strip set. -/
def pyRStripChar (c : Char) (s : Str) : Str :=
  (s.reverse.dropWhile (fun d => d == c)).reverse

/-- Python `s.lstrip("0123456789")`. -/
def pyLStripDigits (s : Str) : Str := s.dropWhile (fun c => c.isDigit)

/-- Python `s.split()` with no argument: split on whitespace runs, dropping
empty pieces. -/
def pySplitWs (s : Str) : List Str :=
  (s.splitOnP (fun c => isPySpace c)).filter (fun t => ¬ t.isEmpty)

/-- Value of a character as a digit in bases up to 36 (Python semantics:
decimal digits, then letters case-insensitively). -/
def digitVal36 (c : Char) : Option Nat :=
  if '0' ≤ c ∧ c ≤ '9' then some (c.toNat - 48)
  else if 'A' ≤ c ∧ c ≤ 'Z' then some (c.toNat - 55)
  else if 'a' ≤ c ∧ c ≤ 'z' then some (c.toNat - 87)
  else none

def parseDigitsBaseAux (b : Nat) : Str → Nat → Option Nat
  | [], acc => some acc
  | c :: cs, acc =>
    match digitVal36 c with
    | some v => if v < b then parseDigitsBaseAux b cs (acc * b + v) else none
    | none => none

/-- Digit-string value in base `b`; `none` for an empty or invalid string. -/
def parseDigitsBase (b : Nat) (s : Str) : Option Nat :=
  match s with
  | [] => none
  | _ => parseDigitsBaseAux b s 0

/-- Python `int(s, base=b)` for `b ∈ {10, 16, 36}`: strips whitespace,
accepts an optional sign, and for base 16 an optional `0x` prefix.  Raises
`ValueError` otherwise. -/
def pyIntBase (b : Nat) (s : Str) : Except PyErr Int :=
  let t := pyStrip s
  let signed : Bool × Str :=
    match t with
    | '-' :: r => (true, r)
    | '+' :: r => (false, r)
    | r => (false, r)
  let body : Str :=
    if b == 16 then
      match signed.2 with
      | '0' :: 'x' :: r => r
      | '0' :: 'X' :: r => r
      | r => r
    else signed.2
  match parseDigitsBase b body with
  | some n => .ok (if signed.1 then -(n : Int) else (n : Int))
  | none => .error .valueError

/-- Python `int(s)`. -/
def pyInt (s : Str) : Except PyErr Int := pyIntBase 10 s

def takeDigitsCount (s : Str) : Nat × Str :=
  (( s.takeWhile Char.isDigit).length, s.dropWhile Char.isDigit)

/-- Mantissa of a Python float literal: `digits [ . digits* ]` or `. digits+`.
Returns the remaining characters on success. -/
def floatMantissa (s : Str) : Option Str :=
  let p := takeDigitsCount s
  match p.2 with
  | '.' :: r2 =>
    let q := takeDigitsCount r2
    if p.1 + q.1 > 0 then some q.2 else none
  | r => if p.1 > 0 then some r else none

/-- Does `float(s)` succeed in Python (finite decimal literals;
`inf`/`nan` spellings are not produced by this file format)? -/
def pyFloatCheck (s : Str) : Bool :=
  let t := pyStrip s
  let t2 : Str :=
    match t with
    | '+' :: r => r
    | '-' :: r => r
    | r => r
  match floatMantissa t2 with
  | none => false
  | some rest =>
    match rest with
    | [] => true
    | c :: r =>
      if c == 'e' || c == 'E' then
        let r2 : Str :=
          match r with
          | '+' :: r3 => r3
          | '-' :: r3 => r3
          | r3 => r3
        let q := takeDigitsCount r2
        decide (q.1 > 0) && q.2.isEmpty
      else false

/-- Python `str(i)` for integers. -/
def intToStr (i : Int) : Str :=
  match i with
  | .ofNat n => Nat.toDigits 10 n
  | .negSucc n => '-' :: Nat.toDigits 10 (n + 1)

/-! ### Python dicts

Insertion-ordered association lists: assigning to an existing key updates it
in place, a new key is appended at the end (CPython 3.7+ semantics). -/

abbrev PyDict (α β : Type) := List (α × β)

def dget? [DecidableEq α] : PyDict α β → α → Option β
  | [], _ => none
  | (k, v) :: rest, k' => if k = k' then some v else dget? rest k'

def dcontains [DecidableEq α] (d : PyDict α β) (k : α) : Bool :=
  (dget? d k).isSome

def dset [DecidableEq α] : PyDict α β → α → β → PyDict α β
  | [], k, v => [(k, v)]
  | (k0, v0) :: rest, k, v =>
    if k0 = k then (k0, v) :: rest else (k0, v0) :: dset rest k v

def dkeys (d : PyDict α β) : List α := d.map Prod.fst

/-! ### Formatting helpers for `%`-style fixed-width fields -/

/-- `%Ns`: right-justify, pad with spaces, never truncate. -/
def padLeftStr (n : Nat) (s : Str) : Str := List.replicate (n - s.length) ' ' ++ s

/-- `%-Ns`: left-justify, pad with spaces, never truncate. -/
def padRightStr (n : Nat) (s : Str) : Str := s ++ List.replicate (n - s.length) ' '

/-- `%Nd`. -/
def fmtInt (width : Nat) (i : Int) : Str := padLeftStr width (intToStr i)

/-- `%+2d`. -/
def fmtPlusInt (i : Int) : Str :=
  padLeftStr 2 (if i < 0 then intToStr i else '+' :: intToStr i)

/-! ### Data model

The hierarchy `PdbStructure → Model → Chain → Residue → Atom → Location`,
embedded from the Python classes.  The mutable "current" object references
(`_current_model`, `_current_chain`, `_current_residue`, `_current_atom`,
`default_model`) are indices into the owning list, and the by-key lookup
dicts store indices as well, so that Python's aliasing of the same object
through several containers is preserved. -/

/-- `Atom.Location`: one alternate location of an atom.  The float-valued
fields hold their validated raw field text (see the module docstring). -/
structure AtomLocation where
  alternate_location_indicator : Char
  position : Str × Str × Str
  occupancy : Str
  temperature_factor : Str
  residue_name : Str
  deriving DecidableEq, Repr

/-- One atom, embedded from class `Atom`.  The `name`/`name_with_spaces`
property pair is stored in both forms (the setter keeps them in sync);
`model_number` is the attribute assigned later by
`PdbStructure._add_atom`. -/
structure Atom where
  is_first_atom_in_chain : Bool
  is_final_atom_in_chain : Bool
  is_first_residue_in_chain : Bool
  is_final_residue_in_chain : Bool
  record_name : Str
  serial_number : Int
  name_with_spaces : Str
  name : Str
  residue_name_with_spaces : Str
  residue_name : Str
  chain_id : Char
  residue_number : Int
  insertion_code : Char
  locations : PyDict Char AtomLocation
  default_location_id : Char
  segment_id : Str
  element_symbol : Str
  formal_charge : Option Int
  element : Option Str
  model_number : Option Int
  deriving DecidableEq, Repr

/-- Property `Atom.alternate_location_indicator`:
`self.locations[self.default_location_id].alternate_location_indicator`
(`KeyError` if the default location were absent). -/
def Atom.get_alternate_location_indicator (a : Atom) : Except PyErr Char :=
  match dget? a.locations a.default_location_id with
  | some loc => .ok loc.alternate_location_indicator
  | none => .error .keyError

/-- `Residue.Location`: per-alternate-location residue name variant.
`name_with_spaces`/`name` are the attributes added dynamically by
`Residue.set_name_with_spaces` (only ever set on the primary location), so
they are `Option`-valued here. -/
structure ResidueLocation where
  alternate_location_indicator : Char
  residue_name_with_spaces : Str
  name_with_spaces : Option Str
  name : Option Str
  deriving DecidableEq, Repr

/-- One residue, embedded from class `Residue`.  `atoms_by_name` maps both
the stripped and the four-character atom name to the index of the atom in
`atoms` (Python stores the object itself; both containers alias it). -/
structure Residue where
  primary_location_id : Char
  segment_id : Str
  locations : PyDict Char ResidueLocation
  number : Int
  insertion_code : Char
  atoms : List Atom
  atoms_by_name : PyDict Str Nat
  is_first_in_chain : Bool
  is_final_in_chain : Bool
  current_atom : Option Nat
  deriving DecidableEq, Repr

/-- `Residue.__init__(name, number, insertion_code,
primary_alternate_location_indicator, segment_id)`.  The final statement
`self.name_with_spaces = name` runs the property setter, which stores
`name` and its stripped form on the primary `Residue.Location`. -/
def Residue.init (name : Str) (number : Int) (insertion_code : Char)
    (primary_alternate_location_indicator : Char) (segment_id : Str) : Residue :=
  let alt_loc := primary_alternate_location_indicator
  { primary_location_id := alt_loc
    segment_id := segment_id
    locations := [(alt_loc,
      { alternate_location_indicator := alt_loc
        residue_name_with_spaces := name
        name_with_spaces := some name
        name := some (pyStrip name) })]
    number := number
    insertion_code := insertion_code
    atoms := []
    atoms_by_name := []
    is_first_in_chain := false
    is_final_in_chain := false
    current_atom := none }

/-- Property `Residue.name_with_spaces` (getter, with `alt_loc=None`):
reads the dynamic `name_with_spaces` attribute of the primary location
(`AttributeError` if it was never assigned, `KeyError` if the location is
absent — neither happens for a residue built by `Residue.__init__`). -/
def Residue.get_name_with_spaces (r : Residue) : Except PyErr Str :=
  match dget? r.locations r.primary_location_id with
  | none => .error .keyError
  | some loc =>
    match loc.name_with_spaces with
    | none => .error .attributeError
    | some s => .ok s

/-- One chain, embedded from class `Chain`.  The by-key residue lookups
store indices into `residues` (first writer wins, as in the source). -/
structure Chain where
  chain_id : Char
  residues : List Residue
  has_ter_record : Bool
  current_residue : Option Nat
  residues_by_num_icode : PyDict Str Nat
  residues_by_number : PyDict Int Nat
  deriving DecidableEq, Repr

/-- `Chain.__init__(chain_id)`. -/
def Chain.init (chain_id : Char) : Chain :=
  { chain_id := chain_id
    residues := []
    has_ter_record := false
    current_residue := none
    residues_by_num_icode := []
    residues_by_number := [] }

/-- One model, embedded from class `Model`. -/
structure Model where
  number : Int
  chains : List Chain
  current_chain : Option Nat
  chains_by_id : PyDict Char Nat
  connects : List (List Int)
  deriving DecidableEq, Repr

/-- `Model.__init__(model_number)`. -/
def Model.init (model_number : Int) : Model :=
  { number := model_number
    chains := []
    current_chain := none
    chains_by_id := []
    connects := [] }

/-- Decode modes the first-overflow resolution can lock in
(`_atom_num_nondec_mode` / `_residue_num_nondec_mode` hold one of the
functions from the two `_initial_nondecimal_functions` tables; here the
table entries are a tagged enumeration). -/
inductive NondecMode where
  | hex
  | chimera
  | overflow
  deriving DecidableEq, Repr

/-- The whole parsed structure, embedded from class `PdbStructure`.  The
mutable counter-overflow resolver state (`_atom_num_nondec_mode`,
`_next_atom_number`, `_residue_num_nondec_mode`, `_next_residue_number`)
lives here, exactly as in the source. -/
structure PdbStructure where
  atom_num_nondec_mode : Option NondecMode
  residue_num_nondec_mode : Option NondecMode
  next_atom_number : Int
  next_residue_number : Int
  load_all_models : Bool
  models : List Model
  current_model : Option Nat
  default_model : Option Nat
  models_by_number : PyDict Int Nat
  unit_cell_lengths : Option (Str × Str × Str)
  unit_cell_angles : Option (Str × Str × Str)
  deriving DecidableEq, Repr

/-- `PdbStructure._reset_atom_numbers`. -/
def PdbStructure.reset_atom_numbers (p : PdbStructure) : PdbStructure :=
  { p with atom_num_nondec_mode := none, next_atom_number := 1 }

/-- `PdbStructure._reset_residue_numbers`. -/
def PdbStructure.reset_residue_numbers (p : PdbStructure) : PdbStructure :=
  { p with residue_num_nondec_mode := none, next_residue_number := 1 }

/-- The field state established by `PdbStructure.__init__` before `_load`
runs (the two `next_*` counters are first assigned by the reset calls at
the top of `_load`; their value here is irrelevant and chosen as 1). -/
def PdbStructure.init (load_all_models : Bool) : PdbStructure :=
  { atom_num_nondec_mode := none
    residue_num_nondec_mode := none
    next_atom_number := 1
    next_residue_number := 1
    load_all_models := load_all_models
    models := []
    current_model := none
    default_model := none
    models_by_number := []
    unit_cell_lengths := none
    unit_cell_angles := none }

/-- Dereference `pdbstructure._current_model`. -/
def PdbStructure.currentModel (p : PdbStructure) : Option Model :=
  match p.current_model with
  | none => none
  | some i => p.models.get? i

/-- Dereference `model._current_chain`. -/
def Model.currentChain (m : Model) : Option Chain :=
  match m.current_chain with
  | none => none
  | some i => m.chains.get? i

/-- Dereference `chain._current_residue`. -/
def Chain.currentResidue (c : Chain) : Option Residue :=
  match c.current_residue with
  | none => none
  | some i => c.residues.get? i

/-- Dereference
`pdbstructure._current_model._current_chain._current_residue`, i.e. the
residue currently open on the active chain (`none` when any link of the
chain of references is `None`). -/
def PdbStructure.currentOpenResidue (p : PdbStructure) : Option Residue :=
  match p.currentModel with
  | none => none
  | some m =>
    match m.currentChain with
    | none => none
    | some c => c.currentResidue

/-- Replace the element of a list at an index (out-of-range: unchanged),
used to write an updated object back through an index-modelled reference. -/
def listSet : List α → Nat → α → List α
  | [], _, _ => []
  | _ :: rest, 0, a => a :: rest
  | x :: rest, n + 1, a => x :: listSet rest n a

/-! ### Counter-overflow resolver (§4.1) -/

/-- The two string fields of the partially-constructed `Atom` that
`_overflow_residue_check` reads (`Atom.__init__` passes `self` before the
remaining fields exist). -/
structure AtomNames where
  name_with_spaces : Str
  residue_name_with_spaces : Str
  deriving DecidableEq, Repr

/-- `_overflow_residue_check(num_str, pdbstructure, curr_atom)`: the
content-aware sequential guess for an unreadable residue-number token.
`num_str` is ignored by the source as well. -/
def overflow_residue_check (num_str : Str) (pdbstructure : PdbStructure)
    (curr_atom : AtomNames) : Except PyErr Int :=
  let _ := num_str
  match pdbstructure.currentOpenResidue with
  | none =>
    -- This is the first residue in the model.
    .ok pdbstructure.next_residue_number
  | some currentRes => do
    let nm ← currentRes.get_name_with_spaces
    if nm ≠ curr_atom.residue_name_with_spaces then
      -- The residue name has changed.
      pure pdbstructure.next_residue_number
    else if dcontains currentRes.atoms_by_name curr_atom.name_with_spaces then
      -- There is already an atom with this name.
      pure pdbstructure.next_residue_number
    else
      pure currentRes.number

/-- The dict `_atom_num_initial_nondecimal_functions`, as a lookup from the
sentinel key to the tagged decode mode. -/
def atom_num_initial_nondecimal_functions (num_str : Str) : Option NondecMode :=
  if num_str = str ("186a0") then some .hex
  else if num_str = str ("A0000") then some .chimera
  else if num_str = str ("*****") then some .overflow
  else none

/-- The dict `_residue_num_initial_nondecimal_functions`. -/
def residue_num_initial_nondecimal_functions (num_str : Str) : Option NondecMode :=
  if num_str = str ("2710") then some .hex
  else if num_str = str ("A000") then some .chimera
  else if num_str = str ("****") then some .overflow
  else none

/-- Apply a locked atom-number decode mode (the lambdas stored in
`_atom_num_initial_nondecimal_functions`): `hex` is `int(s, base=16)`,
`chimera` is `int(s[0], base=36) * 10**4 + int(s[1:], base=36)`,
`overflow` returns `pdbstructure._next_atom_number`. -/
def applyAtomMode (m : NondecMode) (num_str : Str) (p : PdbStructure) :
    Except PyErr Int :=
  match m with
  | .hex => pyIntBase 16 num_str
  | .chimera => do
    let c ← pyCharAt 0 num_str
    let high ← pyIntBase 36 [c]
    let low ← pyIntBase 36 (num_str.drop 1)
    pure (high * 10 ^ 4 + low)
  | .overflow => .ok p.next_atom_number

/-- Apply a locked residue-number decode mode: `hex` is `int(s, base=16)`,
`chimera` is `int(s[0], base=36) * 10**3 + int(s[1:], base=36)`,
`overflow` is `_overflow_residue_check`. -/
def applyResidueMode (m : NondecMode) (num_str : Str) (p : PdbStructure)
    (curr_atom : AtomNames) : Except PyErr Int :=
  match m with
  | .hex => pyIntBase 16 num_str
  | .chimera => do
    let c ← pyCharAt 0 num_str
    let high ← pyIntBase 36 [c]
    let low ← pyIntBase 36 (num_str.drop 1)
    pure (high * 10 ^ 3 + low)
  | .overflow => overflow_residue_check num_str p curr_atom

/-- The `str_type` parameter of `_check_overflow_eligibility`. -/
inductive NumKind where
  | atom
  | residue
  deriving DecidableEq, Repr

/-- `_check_overflow_eligibility(num_str, str_type)`: the token is an exact
sentinel of the relevant table, or its first character is an uppercase
letter (`ord` in `[65, 90]`); `ord(num_str[0])` raises `IndexError` on an
empty token. -/
def check_overflow_eligibility (num_str : Str) (str_type : NumKind) :
    Except PyErr Bool :=
  let inTable : Bool :=
    match str_type with
    | .atom => (atom_num_initial_nondecimal_functions num_str).isSome
    | .residue => (residue_num_initial_nondecimal_functions num_str).isSome
  if inTable then .ok true
  else
    match num_str with
    | [] => .error .indexError
    | c :: _ => .ok (decide (65 ≤ c.toNat ∧ c.toNat ≤ 90))

/-- Exceptions caught by the outer `except` clause of `_read_atom_number` /
`_read_residue_number`: `(AttributeError, ValueError, OverflowError,
KeyError)`. -/
def caughtOuter (e : PyErr) : Bool :=
  e == .attributeError || e == .valueError || e == .overflowError || e == .keyError

/-- Exceptions caught by the inner `except` clause:
`(ValueError, KeyError, TypeError)`. -/
def caughtInner (e : PyErr) : Bool :=
  e == .valueError || e == .keyError || e == .typeError

/-- `_read_atom_number(num_str, pdbstructure)`.  Returns the decoded number
together with the (possibly mode-mutated) structure and any emitted
warnings; uncaught exceptions (notably `IndexError`) propagate. -/
def read_atom_number (num_str : Str) (pdbstructure : Option PdbStructure) :
    Except PyErr (Int × Option PdbStructure × List Warn) :=
  let tryBlock : Except PyErr Int :=
    match pdbstructure with
    | none => .error .attributeError
    | some p =>
      match p.atom_num_nondec_mode with
      | some m => applyAtomMode m num_str p
      | none =>
        if p.next_atom_number > 99999 then
          match check_overflow_eligibility num_str .atom with
          | .error e => .error e
          | .ok true => .error .overflowError
          | .ok false => pyInt num_str
        else pyInt num_str
  match tryBlock with
  | .ok v => .ok (v, pdbstructure, [])
  | .error e =>
    if ¬ caughtOuter e then .error e
    else
      match pdbstructure with
      | none =>
        -- standalone use: int(num_str), falling back to 0 on ValueError
        match pyInt num_str with
        | .ok v => .ok (v, none, [])
        | .error _ => .ok (0, none, [])
      | some p =>
        let modeChosen : Except PyErr (Option NondecMode) :=
          match p.atom_num_nondec_mode with
          | some m => .ok (some m)
          | none =>
            match atom_num_initial_nondecimal_functions num_str with
            | some m => .ok (some m)
            | none =>
              -- KeyError: guess chimera when the first char is uppercase
              match num_str with
              | [] => .error .indexError
              | c :: _ =>
                if 65 ≤ c.toNat ∧ c.toNat ≤ 90 then .ok (some .chimera)
                else .ok none
        match modeChosen with
        | .error e2 => .error e2
        | .ok mode1 =>
          let p1 := { p with atom_num_nondec_mode := mode1 }
          let attempt : Except PyErr Int :=
            match mode1 with
            | none => .error .typeError  -- calling None
            | some m => applyAtomMode m num_str p1
          match attempt with
          | .ok v => .ok (v, some p1, [])
          | .error e2 =>
            if ¬ caughtInner e2 then .error e2
            else
              let p2 := { p1 with atom_num_nondec_mode := some .overflow }
              match applyAtomMode .overflow num_str p2 with
              | .ok v => .ok (v, some p2, [.overflowGuessAtom])
              | .error e3 => .error e3

/-- `_read_residue_number(num_str, pdbstructure, curr_atom)`. -/
def read_residue_number (num_str : Str) (pdbstructure : Option PdbStructure)
    (curr_atom : AtomNames) : Except PyErr (Int × Option PdbStructure × List Warn) :=
  let tryBlock : Except PyErr Int :=
    match pdbstructure with
    | none => .error .attributeError
    | some p =>
      match p.residue_num_nondec_mode with
      | some m => applyResidueMode m num_str p curr_atom
      | none =>
        if p.next_residue_number > 9999 then
          match check_overflow_eligibility num_str .residue with
          | .error e => .error e
          | .ok true => .error .overflowError
          | .ok false => pyInt num_str
        else pyInt num_str
  match tryBlock with
  | .ok v => .ok (v, pdbstructure, [])
  | .error e =>
    if ¬ caughtOuter e then .error e
    else
      match pdbstructure with
      | none =>
        match pyInt num_str with
        | .ok v => .ok (v, none, [])
        | .error _ => .ok (0, none, [])
      | some p =>
        let modeChosen : Except PyErr (Option NondecMode) :=
          match p.residue_num_nondec_mode with
          | some m => .ok (some m)
          | none =>
            match residue_num_initial_nondecimal_functions num_str with
            | some m => .ok (some m)
            | none =>
              match num_str with
              | [] => .error .indexError
              | c :: _ =>
                if 65 ≤ c.toNat ∧ c.toNat ≤ 90 then .ok (some .chimera)
                else .ok none
        match modeChosen with
        | .error e2 => .error e2
        | .ok mode1 =>
          let p1 := { p with residue_num_nondec_mode := mode1 }
          let attempt : Except PyErr Int :=
            match mode1 with
            | none => .error .typeError
            | some m => applyResidueMode m num_str p1 curr_atom
          match attempt with
          | .ok v => .ok (v, some p1, [])
          | .error e2 =>
            if ¬ caughtInner e2 then .error e2
            else
              let p2 := { p1 with residue_num_nondec_mode := some .overflow }
              match applyResidueMode .overflow num_str p2 curr_atom with
              | .ok v => .ok (v, some p2, [.overflowGuessResidue])
              | .error e3 => .error e3

/-! ### Record line parser: `Atom.__init__` -/

/-- Modelled from the spec: the external element-table collaborator
(`mdtraj.core.element`, whose sources are not part of this repository) —
"a lookup-by-symbol service returning an element descriptor or signaling
not found".  The symbol set is a representative sample; no verified claim
depends on which symbols resolve. -/
def element_get_by_symbol (s : Str) : Option Str :=
  let u := (pyStrip s).map Char.toUpper
  if u ∈ [str ("H"), str ("C"), str ("N"), str ("O"), str ("P"), str ("S"),
          str ("F"), str ("K"), str ("NA"), str ("CL"), str ("MG"),
          str ("FE"), str ("ZN"), str ("CA"), str ("BR"), str ("I")] then
    some u
  else none

/-- Modelled from the spec: the collaborator's distinguished hydrogen
descriptor (`element.hydrogen`). -/
def element_hydrogen : Str := str ("H")

/-- `Atom.__init__(pdb_line, pdbstructure)`: parse one `ATOM`/`HETATM`
line.  Returns the new atom, the structure with its resolver state
advanced, and the warnings emitted along the way. -/
def Atom.parse (pdb_line : Str) (pdbstructure : Option PdbStructure) :
    Except PyErr (Atom × Option PdbStructure × List Warn) := do
  let record_name := pyStrip (pySlice 0 6 pdb_line)
  let r1 ← read_atom_number (pySlice 6 11 pdb_line) pdbstructure
  let serial_number := r1.1
  let w1 := r1.2.2
  let name_with_spaces := pySlice 12 16 pdb_line
  -- property setter Atom.set_name_with_spaces asserts len(name) == 4
  if name_with_spaces.length ≠ 4 then throw .assertionError
  let name := pyStrip name_with_spaces
  let alternate_location_indicator ← pyCharAt 16 pdb_line
  let rn0 := pySlice 17 20 pdb_line
  let possible_fourth_character := pySlice 20 21 pdb_line
  let residue_name_with_spaces ←
    if possible_fourth_character ≠ str (" ") then
      -- Fourth character should only be there if official 3 are already full
      if (pyStrip rn0).length ≠ 3 then throw .valueError
      else pure (rn0 ++ possible_fourth_character)
    else pure rn0
  let residue_name := pyStrip residue_name_with_spaces
  let chain_id ← pyCharAt 21 pdb_line
  let r2 ← read_residue_number (pySlice 22 26 pdb_line) r1.2.1
      { name_with_spaces := name_with_spaces
        residue_name_with_spaces := residue_name_with_spaces }
  let residue_number := r2.1
  let w2 := r2.2.2
  let insertion_code ← pyCharAt 26 pdb_line
  let xs := pySlice 30 38 pdb_line
  let ys := pySlice 38 46 pdb_line
  let zs := pySlice 46 54 pdb_line
  if ¬ pyFloatCheck xs then throw .valueError
  if ¬ pyFloatCheck ys then throw .valueError
  if ¬ pyFloatCheck zs then throw .valueError
  let occ0 := pySlice 54 60 pdb_line
  let occupancy := if pyFloatCheck occ0 then occ0 else str ("1.0")
  let tf0 := pySlice 60 66 pdb_line
  let temperature_factor := if pyFloatCheck tf0 then tf0 else str ("0.0")
  let loc : AtomLocation :=
    { alternate_location_indicator := alternate_location_indicator
      position := (xs, ys, zs)
      occupancy := occupancy
      temperature_factor := temperature_factor
      residue_name := residue_name_with_spaces }
  let segment_id := pyStrip (pySlice 72 76 pdb_line)
  let element_symbol := pyStrip (pySlice 76 78 pdb_line)
  let charge_string := pyStrip (pySlice 78 80 pdb_line)
  let chargeRes : Option Int × List Warn :=
    if charge_string.isEmpty then (none, [])
    else
      match pyInt charge_string with
      | .ok v => (some v, [])
      | .error _ =>
        match pyInt charge_string.reverse with
        | .ok v => (some v, [])
        | .error _ => (none, [.chargeParse])
  let element : Option Str :=
    match element_get_by_symbol element_symbol with
    | some e => some e
    | none =>
      -- deduce element from first two characters of the atom name,
      -- removing digits found in some hydrogen atom names
      let symbol := pyLStripDigits (pyStrip (pySlice 0 2 name_with_spaces))
      if name.length = 4 ∧ pySlice 0 1 name = str ("H") then some element_hydrogen
      else element_get_by_symbol symbol
  let atom : Atom :=
    { is_first_atom_in_chain := false
      is_final_atom_in_chain := false
      is_first_residue_in_chain := false
      is_final_residue_in_chain := false
      record_name := record_name
      serial_number := serial_number
      name_with_spaces := name_with_spaces
      name := name
      residue_name_with_spaces := residue_name_with_spaces
      residue_name := residue_name
      chain_id := chain_id
      residue_number := residue_number
      insertion_code := insertion_code
      locations := [(alternate_location_indicator, loc)]
      default_location_id := alternate_location_indicator
      segment_id := segment_id
      element_symbol := element_symbol
      formal_charge := chargeRes.1
      element := element
      model_number := none }
  let pOut : Option PdbStructure :=
    match r2.2.1 with
    | none => none
    | some q => some { q with next_atom_number := serial_number + 1,
                              next_residue_number := residue_number + 1 }
  pure (atom, pOut, w1 ++ w2 ++ chargeRes.2)

/-! ### Hierarchy builder (§4.3) -/

def listModifyAt : List α → Nat → (α → α) → List α
  | [], _, _ => []
  | x :: rest, 0, f => f x :: rest
  | x :: rest, n + 1, f => x :: listModifyAt rest n f

/-- The tail of `Residue._add_atom` after the merge check ("actually use
new atom"): bind both name keys to the new atom and append it. -/
def Residue.appendAtom (r : Residue) (atom : Atom) : Residue :=
  let idx := r.atoms.length
  { r with
    atoms_by_name := dset (dset r.atoms_by_name atom.name idx) atom.name_with_spaces idx
    atoms := r.atoms ++ [atom]
    current_atom := some idx }

/-- `Residue._add_atom(atom)`.  A new alternate-location id adds a
name-variant entry to `locations`; two `assert`s pin the residue number and
insertion code; an atom whose name is already present is merged into the
existing atom's location map when it brings a new alternate-location id
(no new atom appended), while a duplicate (id already present) falls
through past the commented-out warning and is appended like a new atom. -/
def Residue.add_atom (r : Residue) (atom : Atom) : Except PyErr (Residue × List Warn) := do
  let alt_loc ← atom.get_alternate_location_indicator
  let newLoc : ResidueLocation :=
    { alternate_location_indicator := alt_loc
      residue_name_with_spaces := atom.residue_name_with_spaces
      name_with_spaces := none
      name := none }
  let r :=
    if ¬ dcontains r.locations alt_loc then
      { r with locations := dset r.locations alt_loc newLoc }
    else r
  if atom.residue_number ≠ r.number then throw .assertionError
  if atom.insertion_code ≠ r.insertion_code then throw .assertionError
  -- Check whether this is an existing atom with another position
  match dget? r.atoms_by_name atom.name_with_spaces with
  | some oldIdx =>
    match r.atoms.get? oldIdx with
    | none => throw .indexError
    | some old_atom =>
      let ind ← atom.get_alternate_location_indicator
      if dcontains old_atom.locations ind then
        -- duplicated atom: the warning here is commented out in the source
        -- and control falls through to the append below
        pure (r.appendAtom atom, [])
      else
        let merged := atom.locations.foldl (fun d kv => dset d kv.1 kv.2) old_atom.locations
        pure ({ r with atoms := listSet r.atoms oldIdx { old_atom with locations := merged } }, [])
  | none => pure (r.appendAtom atom, [])

/-- `Chain._add_residue(residue)`. -/
def Chain.add_residue (c : Chain) (residue : Residue) : Chain :=
  let residue :=
    if c.residues.length = 0 then { residue with is_first_in_chain := true } else residue
  let idx := c.residues.length
  let key := intToStr residue.number ++ [residue.insertion_code]
  { c with
    residues := c.residues ++ [residue]
    current_residue := some idx
    residues_by_num_icode :=
      if dcontains c.residues_by_num_icode key then c.residues_by_num_icode
      else dset c.residues_by_num_icode key idx
    residues_by_number :=
      if dcontains c.residues_by_number residue.number then c.residues_by_number
      else dset c.residues_by_number residue.number idx }

/-- `Chain._add_atom(atom)`: open a new residue when the residue number or
insertion code changed; when only the residue name changed, silently accept
a point mutation (non-blank alternate-location indicator) or warn and force
a new residue (blank indicator); then delegate to the open residue. -/
def Chain.add_atom (c : Chain) (atom : Atom) : Except PyErr (Chain × List Warn) := do
  let mkRes : Except PyErr Residue := do
    let ind ← atom.get_alternate_location_indicator
    pure (Residue.init atom.residue_name_with_spaces atom.residue_number
        atom.insertion_code ind atom.segment_id)
  let step1 : Except PyErr (Chain × List Warn) :=
    if c.residues.length = 0 then do
      let res ← mkRes
      pure (c.add_residue res, [])
    else
      match c.currentResidue with
      | none => .error .attributeError
      | some cur =>
        if cur.number ≠ atom.residue_number then do
          let res ← mkRes
          pure (c.add_residue res, [])
        else if cur.insertion_code ≠ atom.insertion_code then do
          let res ← mkRes
          pure (c.add_residue res, [])
        else do
          let nm ← cur.get_name_with_spaces
          if nm = atom.residue_name_with_spaces then
            -- normal case: number, name, and iCode have not changed
            pure (c, [])
          else do
            let ind ← atom.get_alternate_location_indicator
            if ind ≠ ' ' then
              -- point mutation: Residue._add_atom will know what to do
              pure (c, [])
            else
              -- only the residue name changed: warn (the message
              -- interpolates self._current_residue.atoms[-1], an
              -- IndexError when the open residue holds no atoms) and
              -- force a new residue anyway
              match cur.atoms.getLast? with
              | none => .error .indexError
              | some _ => do
                let res ← mkRes
                pure (c.add_residue res, [Warn.residueNameChange])
  let s1 ← step1
  match s1.1.current_residue with
  | none => .error .attributeError
  | some idx =>
    match s1.1.residues.get? idx with
    | none => .error .indexError
    | some cur => do
      let r2 ← cur.add_atom atom
      pure ({ s1.1 with residues := listSet s1.1.residues idx r2.1 }, s1.2 ++ r2.2)

/-- `Model._add_chain(chain)`. -/
def Model.add_chain (m : Model) (chain : Chain) : Model :=
  let idx := m.chains.length
  { m with
    chains := m.chains ++ [chain]
    current_chain := some idx
    chains_by_id :=
      if dcontains m.chains_by_id chain.chain_id then m.chains_by_id
      else dset m.chains_by_id chain.chain_id idx }

/-- `Model._add_atom(atom)`: open a new chain when none is open, when the
chain id changed, or after a TER record even with the same id. -/
def Model.add_atom (m : Model) (atom : Atom) : Except PyErr (Model × List Warn) := do
  let m := if m.chains.length = 0 then m.add_chain (Chain.init atom.chain_id) else m
  match m.currentChain with
  | none => .error .attributeError
  | some cur =>
    let m :=
      if cur.chain_id ≠ atom.chain_id then m.add_chain (Chain.init atom.chain_id)
      else if cur.has_ter_record then m.add_chain (Chain.init atom.chain_id)
      else m
    match m.current_chain with
    | none => .error .attributeError
    | some idx =>
      match m.chains.get? idx with
      | none => .error .indexError
      | some cc => do
        let r ← cc.add_atom atom
        pure ({ m with chains := listSet m.chains idx r.1 }, r.2)

/-- `PdbStructure._add_model(model)`. -/
def PdbStructure.add_model (p : PdbStructure) (model : Model) : PdbStructure :=
  let idx := p.models.length
  { p with
    default_model := match p.default_model with | none => some idx | some d => some d
    models := p.models ++ [model]
    current_model := some idx
    models_by_number :=
      if dcontains p.models_by_number model.number then p.models_by_number
      else dset p.models_by_number model.number idx }

/-- `PdbStructure._add_atom(atom)`: implicitly open `Model(0)` when no
model is open, stamp the model number on the atom, delegate to the model. -/
def PdbStructure.add_atom (p : PdbStructure) (atom : Atom) :
    Except PyErr (PdbStructure × List Warn) := do
  let p := if p.current_model = none then p.add_model (Model.init 0) else p
  match p.current_model with
  | none => .error .attributeError
  | some idx =>
    match p.models.get? idx with
    | none => .error .indexError
    | some m => do
      let r ← m.add_atom { atom with model_number := some m.number }
      pure ({ p with models := listSet p.models idx r.1 }, r.2)

/-- `Residue._finalize()`. -/
def Residue.finalize (r : Residue) : Residue :=
  if r.atoms.length > 0 then
    let atoms := listModifyAt r.atoms 0
      (fun a => { a with is_first_atom_in_chain := r.is_first_in_chain })
    let atoms := listModifyAt atoms (atoms.length - 1)
      (fun a => { a with is_final_atom_in_chain := r.is_final_in_chain })
    { r with atoms := atoms.map (fun a =>
        { a with is_first_residue_in_chain := r.is_first_in_chain
                 is_final_residue_in_chain := r.is_final_in_chain }) }
  else r

/-- `Chain._finalize()`: `self.residues[0]` raises `IndexError` on an empty
chain. -/
def Chain.finalize (c : Chain) : Except PyErr Chain :=
  match c.residues with
  | [] => .error .indexError
  | _ =>
    let rs := listModifyAt c.residues 0 (fun r => { r with is_first_in_chain := true })
    let rs := listModifyAt rs (rs.length - 1) (fun r => { r with is_final_in_chain := true })
    .ok { c with residues := rs.map Residue.finalize }

/-- `Chain._add_ter_record()`. -/
def Chain.add_ter_record (c : Chain) : Except PyErr Chain :=
  Chain.finalize { c with has_ter_record := true }

/-- `Model._finalize()`. -/
def Model.finalize (m : Model) : Except PyErr Model := do
  let cs ← m.chains.mapM Chain.finalize
  pure { m with chains := cs }

/-- `PdbStructure._finalize()`. -/
def PdbStructure.finalize (p : PdbStructure) : Except PyErr PdbStructure := do
  let ms ← p.models.mapM Model.finalize
  pure { p with models := ms }

/-- `PdbStructure.__len__()`. -/
def PdbStructure.length (p : PdbStructure) : Nat := p.models.length

/-! ### The load loop (`PdbStructure._load`) -/

/-- The loop state of `_load`: the structure being built plus the local
variable `state` (`true` iff `state == "NEW_MODEL"`). -/
structure Loader where
  pdb : PdbStructure
  new_model_state : Bool
  deriving DecidableEq, Repr

/-- One iteration of the `for pdb_line in input_stream` loop of
`PdbStructure._load`.  The returned `Bool` is `true` when the loop
`break`s (first-model-only mode at `ENDMDL`/`END`). -/
def load_line (ld : Loader) (pdb_line : Str) : Except PyErr (Loader × Bool × List Warn) :=
  let p := ld.pdb
  if (str ("ATOM  ")).isPrefixOf pdb_line ∨ (str ("HETATM")).isPrefixOf pdb_line then do
    let ld1 ←
      if ld.new_model_state then
        match p.currentModel with
        | none => .error .attributeError
        | some m =>
          pure (Loader.mk (p.add_model (Model.init (m.number + 1))) false)
      else pure ld
    let r ← Atom.parse pdb_line (some ld1.pdb)
    match r.2.1 with
    | none => .error .typeError  -- unreachable: Atom.parse keeps the structure present
    | some p2 => do
      let r2 ← p2.add_atom r.1
      pure (Loader.mk r2.1 ld1.new_model_state, false, r.2.2 ++ r2.2)
  else if (str ("MODEL")).isPrefixOf pdb_line then
    let new_number : Int :=
      match p.currentModel with
      | none => 0
      | some m => m.number + 1
    let p := (p.add_model (Model.init new_number)).reset_atom_numbers.reset_residue_numbers
    .ok (Loader.mk p false, false, [])
  else if (str ("ENDMDL")).isPrefixOf pdb_line then
    match p.current_model with
    | none => .error .attributeError
    | some idx =>
      match p.models.get? idx with
      | none => .error .indexError
      | some m => do
        let m2 ← m.finalize
        let p := { p with models := listSet p.models idx m2 }
        if p.load_all_models then
          pure (Loader.mk p true, false, [])
        else
          pure (Loader.mk p ld.new_model_state, true, [])
  else if (str ("END")).isPrefixOf pdb_line then
    match p.current_model with
    | none => .error .attributeError
    | some idx =>
      match p.models.get? idx with
      | none => .error .indexError
      | some m => do
        let m2 ← m.finalize
        let p := { p with models := listSet p.models idx m2 }
        if p.load_all_models then
          pure (Loader.mk p true, false, [])
        else
          pure (Loader.mk p ld.new_model_state, true, [])
  else if (str ("TER")).isPrefixOf pdb_line ∧ (pySplitWs pdb_line).head? = some (str ("TER")) then
    match p.current_model with
    | none => .error .attributeError
    | some midx =>
      match p.models.get? midx with
      | none => .error .indexError
      | some m =>
        match m.current_chain with
        | none => .error .attributeError
        | some cidx =>
          match m.chains.get? cidx with
          | none => .error .indexError
          | some c => do
            let c2 ← c.add_ter_record
            let m2 := { m with chains := listSet m.chains cidx c2 }
            let p := ({ p with models := listSet p.models midx m2 }).reset_residue_numbers
            pure (Loader.mk p ld.new_model_state, false, [])
  else if (str ("CRYST1")).isPrefixOf pdb_line then
    let la := pySlice 6 15 pdb_line
    let lb := pySlice 15 24 pdb_line
    let lc := pySlice 24 33 pdb_line
    let aa := pySlice 33 40 pdb_line
    let ab := pySlice 40 47 pdb_line
    let ac := pySlice 47 54 pdb_line
    if pyFloatCheck la ∧ pyFloatCheck lb ∧ pyFloatCheck lc ∧
       pyFloatCheck aa ∧ pyFloatCheck ab ∧ pyFloatCheck ac then
      .ok (Loader.mk
        { p with unit_cell_lengths := some (la, lb, lc)
                 unit_cell_angles := some (aa, ab, ac) }
        ld.new_model_state, false, [])
    else .error .valueError
  else if (str ("CONECT")).isPrefixOf pdb_line then do
    -- ll = len(pdb_line[:-1].rstrip(" ")) - 5
    let ll : Int := (Int.ofNat (pyRStripChar ' ' pdb_line.dropLast).length) - 5
    let r ← ([6, 11, 16, 21, 26].filter (fun pos => (Int.ofNat pos) ≤ ll)).foldlM
      (fun (acc : List Int × PdbStructure × List Warn) pos => do
        let r0 ← read_atom_number (pySlice pos (pos + 5) pdb_line) (some acc.2.1)
        match r0.2.1 with
        | none => .error .typeError  -- unreachable
        | some q => pure (acc.1 ++ [r0.1], q, acc.2.2 ++ r0.2.2))
      ([], p, [])
    match r.2.1.current_model with
    | none => .error .attributeError
    | some midx =>
      match r.2.1.models.get? midx with
      | none => .error .indexError
      | some m =>
        let m2 := { m with connects := m.connects ++ [r.1] }
        let p2 := { r.2.1 with models := listSet r.2.1.models midx m2 }
        pure (Loader.mk p2 ld.new_model_state, false, r.2.2)
  else
    .ok (ld, false, [])

/-- The `for` loop of `_load`, counting consumed lines and collecting
warnings. -/
def load_lines : Loader → List Str → Nat → List Warn →
    Except PyErr (Loader × Nat × List Warn)
  | ld, [], n, ws => .ok (ld, n, ws)
  | ld, l :: rest, n, ws => do
    let r ← load_line ld l
    if r.2.1 then .ok (r.1, n + 1, ws ++ r.2.2)
    else load_lines r.1 rest (n + 1) (ws ++ r.2.2)

/-- `PdbStructure.__init__(input_stream, load_all_models)`: initialise the
fields, reset both resolver scopes, run the line loop, finalize.  Returns
the structure, the number of input lines consumed, and the warnings. -/
def PdbStructure.load (lines : List Str) (load_all_models : Bool) :
    Except PyErr (PdbStructure × Nat × List Warn) := do
  let p := ((PdbStructure.init load_all_models).reset_atom_numbers).reset_residue_numbers
  let r ← load_lines (Loader.mk p false) lines 0 []
  let p2 ← r.1.pdb.finalize
  pure (p2, r.2.1, r.2.2)

/-! ### Serializer (§4.4)

Float re-formatting (`%8.3f`, `%6.2f`) is abstracted: the validated raw
field text captured at parse time is re-emitted in its place (see the
module docstring); every other column of the output line is assembled
exactly as in `Atom._pdb_string`. -/

/-- `Atom._pdb_string(serial_number, alternate_location_indicator)`.
Note that the coordinate/occupancy/temperature-factor columns always come
from the atom's default location (`self.x` etc. read
`self.locations[self.default_location_id]`), whatever location id is being
written. -/
def Atom.pdb_string (a : Atom) (serial_number : Option Int)
    (alternate_location_indicator : Option Char) : Except PyErr Str := do
  let serial : Int :=
    match serial_number with
    | none => a.serial_number
    | some s => s
  let ind ←
    match alternate_location_indicator with
    | none => a.get_alternate_location_indicator
    | some c => pure c
  let long_res_name :=
    if a.residue_name_with_spaces.length = 3 then a.residue_name_with_spaces ++ [' ']
    else a.residue_name_with_spaces
  if long_res_name.length ≠ 4 then throw .assertionError
  match dget? a.locations a.default_location_id with
  | none => throw .keyError
  | some loc =>
    let names := padRightStr 6 a.record_name ++ fmtInt 5 serial ++ [' '] ++
      padLeftStr 4 a.name_with_spaces ++ [ind] ++ padLeftStr 4 long_res_name ++
      [a.chain_id] ++ fmtInt 4 a.residue_number ++ [a.insertion_code] ++ str ("   ")
    let numbers := loc.position.1 ++ loc.position.2.1 ++ loc.position.2.2 ++
      loc.occupancy ++ loc.temperature_factor ++ str ("      ")
    let tailPart := padRightStr 4 a.segment_id ++ padLeftStr 2 a.element_symbol
    let formal_charge :=
      match a.formal_charge with
      | none => str ("  ")
      | some q => fmtPlusInt q
    pure (names ++ numbers ++ tailPart ++ formal_charge)

/-- `Atom.write(next_serial_number, output_stream, alt_loc)`.  The
selector is `None` (primary only), `""` (primary only), `"*"` (all
locations — but `self.locations.keys()` is a `dict_keys` view in
Python 3, so the `locs.sort()` call raises `AttributeError`), or a string
of location ids.  Returns the emitted lines and the advanced serial
counter. -/
def Atom.write (a : Atom) (next_serial_number : Int) (alt_loc : Option Str) :
    Except PyErr (List Str × Int) := do
  let locs : List Char ←
    match alt_loc with
    | none => pure [a.default_location_id]
    | some s =>
      if s.isEmpty then pure [a.default_location_id]
      else if s = str ("*") then throw .attributeError
      else pure s
  locs.foldlM (fun acc loc_id => do
      let line ← a.pdb_string (some acc.2) (some loc_id)
      pure (acc.1 ++ [line], acc.2 + 1))
    (([] : List Str), next_serial_number)

def insertChar (c : Char) : List Char → List Char
  | [] => [c]
  | d :: rest => if c ≤ d then c :: d :: rest else d :: insertChar c rest

def sortChars : List Char → List Char
  | [] => []
  | c :: rest => insertChar c (sortChars rest)

/-- Modelled from the spec: `Atom.write` as its own docstring and
§4.4 document it — `alt_loc = "*"` writes all locations it holds in
ascending id order (`sorted(self.locations.keys())`), instead of the
`AttributeError` the shipped code raises there.  Used to state what the
write path does apart from that slip. -/
def Atom.write_intended (a : Atom) (next_serial_number : Int) (alt_loc : Option Str) :
    Except PyErr (List Str × Int) := do
  let locs : List Char ←
    match alt_loc with
    | none => pure [a.default_location_id]
    | some s =>
      if s.isEmpty then pure [a.default_location_id]
      else if s = str ("*") then pure (sortChars (dkeys a.locations))
      else pure s
  locs.foldlM (fun acc loc_id => do
      let line ← a.pdb_string (some acc.2) (some loc_id)
      pure (acc.1 ++ [line], acc.2 + 1))
    (([] : List Str), next_serial_number)

/-- `Residue.write(next_serial_number, output_stream, alt_loc)` (callers
leave `alt_loc` at its `"*"` default). -/
def Residue.write (r : Residue) (next_serial_number : Int) (alt_loc : Option Str) :
    Except PyErr (List Str × Int) :=
  r.atoms.foldlM (fun acc atom => do
      let w ← atom.write acc.2 alt_loc
      pure (acc.1 ++ w.1, w.2))
    (([] : List Str), next_serial_number)

/-- `Residue.write` on top of `Atom.write_intended`. -/
def Residue.write_intended (r : Residue) (next_serial_number : Int) (alt_loc : Option Str) :
    Except PyErr (List Str × Int) :=
  r.atoms.foldlM (fun acc atom => do
      let w ← atom.write_intended acc.2 alt_loc
      pure (acc.1 ++ w.1, w.2))
    (([] : List Str), next_serial_number)

/-- The TER line `"TER   %5d      %3s %1s%4d%1s"` emitted by
`Chain.write` for a terminated chain, using the last residue. -/
def Chain.terLine (c : Chain) (serial : Int) (r : Residue) : Except PyErr Str := do
  let nm ← r.get_name_with_spaces
  pure (str ("TER   ") ++ fmtInt 5 serial ++ str ("      ") ++ padLeftStr 3 nm ++
    [' '] ++ [c.chain_id] ++ fmtInt 4 (Int.emod r.number 10000) ++ [r.insertion_code])

/-- `Chain.write(next_serial_number, output_stream)`. -/
def Chain.write (c : Chain) (next_serial_number : Int) : Except PyErr (List Str × Int) := do
  let res ← c.residues.foldlM (fun acc r => do
      let w ← r.write acc.2 (some (str ("*")))
      pure (acc.1 ++ w.1, w.2))
    (([] : List Str), next_serial_number)
  if c.has_ter_record then
    match c.residues.getLast? with
    | none => throw .indexError
    | some r => do
      let line ← c.terLine res.2 r
      pure (res.1 ++ [line], res.2 + 1)
  else pure res

/-- `Chain.write` on top of `Residue.write_intended`. -/
def Chain.write_intended (c : Chain) (next_serial_number : Int) :
    Except PyErr (List Str × Int) := do
  let res ← c.residues.foldlM (fun acc r => do
      let w ← r.write_intended acc.2 (some (str ("*")))
      pure (acc.1 ++ w.1, w.2))
    (([] : List Str), next_serial_number)
  if c.has_ter_record then
    match c.residues.getLast? with
    | none => throw .indexError
    | some r => do
      let line ← c.terLine res.2 r
      pure (res.1 ++ [line], res.2 + 1)
  else pure res

/-- `Model.write(output_stream)`: start atom serial numbers at 1, share
the counter across the whole model. -/
def Model.write (m : Model) : Except PyErr (List Str) := do
  let r ← m.chains.foldlM (fun acc c => do
      let w ← c.write acc.2
      pure (acc.1 ++ w.1, w.2))
    (([] : List Str), (1 : Int))
  pure r.1

/-- `Model.write` on top of `Chain.write_intended`. -/
def Model.write_intended (m : Model) : Except PyErr (List Str) := do
  let r ← m.chains.foldlM (fun acc c => do
      let w ← c.write_intended acc.2
      pure (acc.1 ++ w.1, w.2))
    (([] : List Str), (1 : Int))
  pure r.1

/-- `PdbStructure.write(output_stream)`. -/
def PdbStructure.write (p : PdbStructure) : Except PyErr (List Str) := do
  let body ← p.models.foldlM (fun acc model =>
      if model.chains.length = 0 then pure acc
      else do
        let headPart : List Str :=
          if p.models.length > 1 then [str ("MODEL     ") ++ fmtInt 4 model.number] else []
        let w ← model.write
        let tailPart : List Str :=
          if p.models.length > 1 then [str ("ENDMDL")] else []
        pure (acc ++ headPart ++ w ++ tailPart))
    ([] : List Str)
  pure (body ++ [str ("END")])

/-- `PdbStructure.write` on top of `Model.write_intended`. -/
def PdbStructure.write_intended (p : PdbStructure) : Except PyErr (List Str) := do
  let body ← p.models.foldlM (fun acc model =>
      if model.chains.length = 0 then pure acc
      else do
        let headPart : List Str :=
          if p.models.length > 1 then [str ("MODEL     ") ++ fmtInt 4 model.number] else []
        let w ← model.write_intended
        let tailPart : List Str :=
          if p.models.length > 1 then [str ("ENDMDL")] else []
        pure (acc ++ headPart ++ w ++ tailPart))
    ([] : List Str)
  pure (body ++ [str ("END")])

/-! ### Concrete test inputs -/

/-- Assemble a well-formed 80-column coordinate line from a 5-character
serial field, 4-character atom name, alternate-location indicator,
3-character residue name, chain id, 4-character residue-sequence field and
insertion code; coordinates, occupancy and temperature factor are fixed
valid values, the element column is `N`. -/
def atomLine (serial name : Str) (alt : Char) (resname : Str) (chain : Char)
    (resseq : Str) (icode : Char) : Str :=
  str ("ATOM  ") ++ serial ++ str (" ") ++ name ++ [alt] ++ resname ++ str (" ") ++
  [chain] ++ resseq ++ [icode] ++ str ("   ") ++ str ("  11.104") ++ str ("   6.134") ++
  str ("  -6.504") ++ str ("  1.00") ++ str ("  0.00") ++ str ("      ") ++
  str ("    ") ++ str (" N") ++ str ("  ")

/-- A single well-formed coordinate line. -/
def oneAtomLine : Str :=
  atomLine (str ("    1")) (str (" N  ")) ' ' (str ("ALA")) 'A' (str ("   1")) ' '

def fileOneAtom : List Str := [oneAtomLine]

/-- `MODEL 1 … ENDMDL … MODEL 2 … ENDMDL … END`, one atom per model. -/
def fileTwoModels : List Str :=
  [str ("MODEL     1"),
   atomLine (str ("    1")) (str (" N  ")) ' ' (str ("ALA")) 'A' (str ("   1")) ' ',
   str ("ENDMDL"),
   str ("MODEL     2"),
   atomLine (str ("    1")) (str (" N  ")) ' ' (str ("ALA")) 'A' (str ("   1")) ' ',
   str ("ENDMDL"),
   str ("END")]

/-- A model closed by `ENDMDL` whose successor model is opened implicitly
by the next coordinate record; that record's serial field is the
sequential-guess sentinel `*****`. -/
def fileImplicitModel : List Str :=
  [str ("MODEL     1"),
   atomLine (str ("    5")) (str (" N  ")) ' ' (str ("ALA")) 'A' (str ("   1")) ' ',
   str ("ENDMDL"),
   atomLine (str ("*****")) (str (" CA ")) ' ' (str ("GLY")) 'A' (str ("   2")) ' ',
   str ("END")]

/-- A realistic chain-terminator record: keyword followed by serial,
residue name, chain id and residue number. -/
def terLineWithFields : Str := str ("TER       2      ALA A   1")

def fileTerExtra : List Str := [oneAtomLine, terLineWithFields]

/-- Two coordinate records whose serial numbers 7 and 9 leave gaps. -/
def fileGapSerials : List Str :=
  [atomLine (str ("    7")) (str (" N  ")) ' ' (str ("ALA")) 'A' (str ("   1")) ' ',
   atomLine (str ("    9")) (str (" CA ")) ' ' (str ("ALA")) 'A' (str ("   1")) ' ']

/-- Two consecutive records, same residue number/insertion code, different
residue names (`ALA` then `GLY`), both carrying the same non-blank
alternate-location indicator `A`. -/
def fileSameAltMutation : List Str :=
  [atomLine (str ("    1")) (str (" N  ")) 'A' (str ("ALA")) 'A' (str ("   1")) ' ',
   atomLine (str ("    2")) (str (" CA ")) 'A' (str ("GLY")) 'A' (str ("   1")) ' ']

/-- Two records with the same atom name and the same (blank)
alternate-location indicator: a genuine duplicate. -/
def fileDuplicateAtom : List Str :=
  [atomLine (str ("    1")) (str (" N  ")) ' ' (str ("ALA")) 'A' (str ("   1")) ' ',
   atomLine (str ("    2")) (str (" N  ")) ' ' (str ("ALA")) 'A' (str ("   1")) ' ']

/-- Same atom name under alternate-location indicators `B` then `A`. -/
def fileAltBA : List Str :=
  [atomLine (str ("    1")) (str (" N  ")) 'B' (str ("ALA")) 'A' (str ("   1")) ' ',
   atomLine (str ("    2")) (str (" N  ")) 'A' (str ("ALA")) 'A' (str ("   1")) ' ']

/-- First atom of the first residue of the first chain of the first model. -/
def firstAtomOf (p : PdbStructure) : Option Atom :=
  match p.models with
  | m :: _ =>
    match m.chains with
    | c :: _ =>
      match c.residues with
      | r :: _ => r.atoms.head?
      | [] => none
    | [] => none
  | [] => none

/-! ### Claim theorems -/

/-- C8: loading the two-model input (`MODEL 1`, one atom, `ENDMDL`,
`MODEL 2`, one atom, `ENDMDL`, `END`) with all models requested yields a
structure of `__len__` 2 after consuming all 7 lines; with first-model-only
requested it yields `__len__` 1 and the loader stops consuming input at the
first `ENDMDL` (3 lines consumed of 7). -/
theorem c8_two_model_load :
    (PdbStructure.load fileTwoModels true).map (fun r => (r.1.length, r.2.1)) = .ok (2, 7) ∧
    (PdbStructure.load fileTwoModels false).map (fun r => (r.1.length, r.2.1)) = .ok (1, 3) := by
  decide

/-- C2: the claim describes `Atom.write`'s documented behaviour (one line
per held alternate-location id, ascending, counter incremented per line),
but with the default selector `alt_loc="*"` the shipped code executes
`locs = self.locations.keys(); locs.sort()`, and in Python 3 `dict_keys`
has no `sort` method, so it raises `AttributeError` instead (first
conjunct).  The second conjunct shows the documented behaviour holds for
the spec-modelled `Atom.write_intended` on an atom holding locations `B`
and `A` (inserted in that order): exactly one line per id, in ascending id
order `A`, `B`, with serial numbers 1, 2 stamped and the shared counter
left at 3. -/
theorem c2_write_default_raises :
    ((Atom.parse oneAtomLine none).bind (fun r => Atom.write r.1 1 (some (str ("*")))))
      = .error .attributeError ∧
    ((PdbStructure.load fileAltBA true).map (fun r =>
        (firstAtomOf r.1).map (fun a =>
          (Atom.write_intended a 1 (some (str ("*")))).map (fun w =>
            (w.1.map (fun line => pySlice 16 17 line),
             w.1.map (fun line => pySlice 6 11 line),
             w.2)))))
      = .ok (some (.ok ([str ("A"), str ("B")], [str ("    1"), str ("    2")], 3))) := by
  decide

/-- C3: the claim describes the write path's documented sequential
renumbering, but serializing any loaded structure that holds an atom
aborts with `AttributeError`: `Chain.write → Residue.write → Atom.write`
passes the default selector `"*"`, which hits the Python-3
`dict_keys`/`sort` slip of C2 (first conjunct).  The second conjunct shows
the documented renumbering on the spec-modelled `write_intended` path:
loading two single-location atoms with gapped serials 7 and 9 and
re-serializing emits serial columns `    1` and `    2` (renumbered from 1
in write order, ignoring the input serials) followed by the single `END`
line. -/
theorem c3_structure_write_raises :
    ((PdbStructure.load fileOneAtom true).bind (fun r => r.1.write)) = .error .attributeError ∧
    ((PdbStructure.load fileGapSerials true).bind (fun r => r.1.write_intended)).map
        (fun lines => (lines.length, (lines.take 2).map (fun l => pySlice 6 11 l), lines.getLast?))
      = .ok (3, [str ("    1"), str ("    2")], some (str ("END"))) := by
  decide

/-- C1 counterexample: the claim asserts that a model opened implicitly by
a coordinate record following an end-of-model marker begins with freshly
reset counters and modes.  In `fileImplicitModel`, model 1's atom has
serial 5 (so the next-expected-atom counter is 6 when `ENDMDL` is seen);
the coordinate record that then opens model 2 implicitly carries the
sequential-guess sentinel `*****`, which decodes to the
next-expected-atom counter.  The code decodes it to 6 — the counter
carried over from model 1 — whereas a freshly reset resolver decodes the
same token to 1 (second conjunct).  So the implicit model boundary resets
neither counter nor mode, refuting the claim at this input. -/
theorem c1_counterexample :
    (PdbStructure.load fileImplicitModel true).map (fun r =>
        r.1.models.map (fun m => m.chains.map (fun c =>
          c.residues.map (fun res => res.atoms.map (fun a => a.serial_number)))))
      = .ok [[[[5]]], [[[6]]]] ∧
    (read_atom_number (str ("*****"))
        (some (((PdbStructure.init true).reset_atom_numbers).reset_residue_numbers))).map
        (fun r => r.1)
      = .ok 1 := by
  decide

/-- C5 counterexample: the claim asserts that whenever the second of two
consecutive records with equal residue number/insertion code and different
residue names carries a non-blank alternate-location indicator, the merged
residue "carries both residue-name variants in its per-location name
table".  With both records carrying the same indicator `A`
(`fileSameAltMutation`: names `ALA` then `GLY`), the atom is merged into
the single residue with no diagnostic, but the name table holds only the
entry `('A', "ALA")` — the second name variant is not recorded, because
`Residue._add_atom` only adds a `locations` entry for an id not already
present.  This refutes the claim's final conjunct at this input. -/
theorem c5_counterexample :
    (PdbStructure.load fileSameAltMutation true).map (fun r =>
        (r.1.models.map (fun m => m.chains.map (fun c => c.residues.map (fun res =>
          res.locations.map (fun kv => (kv.1, kv.2.residue_name_with_spaces))))),
         r.2.2))
      = .ok ([[[[('A', str ("ALA"))]]]], []) := by
  rfl

/-- C6 counterexample: the claim asserts that a record whose atom name and
alternate-location indicator are both already present on the open
residue's atom is dropped.  In `fileDuplicateAtom` (two ` N  ` records,
both with a blank indicator), the second record is not dropped: control
falls through the `pass` branch of `Residue._add_atom` (the duplicate
warning is commented out) and the atom is appended, leaving the residue
with 2 atoms rather than 1, with no diagnostic. -/
theorem c6_counterexample :
    (PdbStructure.load fileDuplicateAtom true).map (fun r =>
        (r.1.models.map (fun m => m.chains.map (fun c =>
          c.residues.map (fun res => res.atoms.length))),
         r.2.2))
      = .ok ([[[2]]], []) := by
  decide

/-- C9 counterexample: the claim asserts a line whose first token is the
terminator keyword but which carries further tokens is not treated as a
chain terminator.  `terLineWithFields` (`TER` followed by serial, residue
name, chain id, residue number — 5 whitespace tokens) satisfies the
source's condition `pdb_line.split()[0] == "TER"`, so the chain IS marked
terminated, refuting the claim at this input. -/
theorem c9_counterexample :
    (pySplitWs terLineWithFields).length = 5 ∧
    (PdbStructure.load fileTerExtra true).map (fun r =>
        r.1.models.map (fun m => m.chains.map (fun c => c.has_ter_record)))
      = .ok [[true]] := by
  decide

/-! ### General theorems and helper lemmas -/

theorem isPrefixOf_ex {s l : Str} (h : s.isPrefixOf l = true) :
    ∃ t, l = s ++ t := by
  induction s generalizing l with
  | nil => exact ⟨l, rfl⟩
  | cons c cs ih =>
    cases l with
    | nil => simp [List.isPrefixOf] at h
    | cons x xs =>
      simp only [List.isPrefixOf, Bool.and_eq_true, beq_iff_eq] at h
      obtain ⟨t, ht⟩ := ih h.2
      exact ⟨t, by rw [h.1, ht]; rfl⟩

theorem listSet_length (xs : List α) (n : Nat) (a : α) : (listSet xs n a).length = xs.length := by
  induction xs generalizing n with
  | nil => rfl
  | cons x rest ih =>
    cases n with
    | zero => rfl
    | succ k => simp [listSet, ih]

theorem listSet_get?_self {xs : List α} {n : Nat} {x : α} (h : xs.get? n = some x) (a : α) :
    (listSet xs n a).get? n = some a := by
  induction xs generalizing n with
  | nil => simp [List.get?] at h
  | cons y rest ih =>
    cases n with
    | zero => rfl
    | succ k =>
      simp only [List.get?] at h
      simpa [listSet] using ih h

theorem add_ter_record_has_ter {c c2 : Chain} (h : Chain.add_ter_record c = .ok c2) :
    c2.has_ter_record = true := by
  unfold Chain.add_ter_record Chain.finalize at h
  cases hr : c.residues with
  | nil => rw [hr] at h; simp at h
  | cons r rs =>
    rw [hr] at h
    simp only [Except.ok.injEq] at h
    rw [← h]

/-- C4: the sequential-guess residue decoder (`_overflow_residue_check`),
given the owning structure and current atom: with no residue open it
returns the next-expected-residue counter; with an open residue it returns
the counter when the open residue's name differs from the atom's residue
name, or when the atom's name is already present in the open residue's
atom table; otherwise it returns the open residue's existing number. -/
theorem c4_sequential_guess_residue (num_str : Str) (p : PdbStructure) (curr_atom : AtomNames) :
    (p.currentOpenResidue = none →
      overflow_residue_check num_str p curr_atom = .ok p.next_residue_number) ∧
    (∀ res nm, p.currentOpenResidue = some res → res.get_name_with_spaces = .ok nm →
      ((nm ≠ curr_atom.residue_name_with_spaces →
        overflow_residue_check num_str p curr_atom = .ok p.next_residue_number) ∧
       (nm = curr_atom.residue_name_with_spaces →
        dcontains res.atoms_by_name curr_atom.name_with_spaces = true →
        overflow_residue_check num_str p curr_atom = .ok p.next_residue_number) ∧
       (nm = curr_atom.residue_name_with_spaces →
        dcontains res.atoms_by_name curr_atom.name_with_spaces = false →
        overflow_residue_check num_str p curr_atom = .ok res.number))) := by
  constructor
  · intro h
    simp only [overflow_residue_check, h]
  · intro res nm h hnm
    refine ⟨fun hne => ?_, fun heq hc => ?_, fun heq hc => ?_⟩
    · simp only [overflow_residue_check, h, hnm, Except.bind, bind, if_pos hne]
      rfl
    · simp only [overflow_residue_check, h, hnm, Except.bind, bind, heq, hc]
      simp only [ne_eq, not_true_eq_false, if_false, if_true]
      rfl
    · simp only [overflow_residue_check, h, hnm, Except.bind, bind, heq, hc]
      simp only [ne_eq, not_true_eq_false, if_false]
      rfl

/-- C7: the hybrid alphanumeric (chimera) decoder computes
`high * 10^k + low` where `high` is the first character read as a base-36
digit (`int(s[0], 36)`) and `low` is the remainder read as a base-36
number (`int(s[1:], 36)`), with `k = 4` for atom numbers and `k = 3` for
residue numbers; and end-to-end, a residue-sequence token `A000` resolved
while the residue counter is already past 9999 decodes to exactly 10000,
locking the chimera mode with no diagnostic. -/
theorem c7_hybrid_decoder (c : Char) (cs : Str) (p : PdbStructure) (a : AtomNames)
    (hi lo : Int)
    (hh : pyIntBase 36 [c] = .ok hi) (hl : pyIntBase 36 cs = .ok lo) :
    applyAtomMode .chimera (c :: cs) p = .ok (hi * 10 ^ 4 + lo) ∧
    applyResidueMode .chimera (c :: cs) p a = .ok (hi * 10 ^ 3 + lo) ∧
    (p.residue_num_nondec_mode = none → p.next_residue_number > 9999 →
      read_residue_number (str ("A000")) (some p) a
        = .ok (10000, some { p with residue_num_nondec_mode := some NondecMode.chimera }, [])) := by
  refine ⟨?_, ?_, ?_⟩
  · simp only [applyAtomMode, pyCharAt, List.get?, Except.bind, bind, hh, hl, List.drop]
    rfl
  · simp only [applyResidueMode, pyCharAt, List.get?, Except.bind, bind, hh, hl, List.drop]
    rfl
  · intro hmode hgt
    simp only [read_residue_number, hmode, if_pos hgt]
    rfl

/-- C10: an end-of-model, end-of-structure, or chain-terminator marker
arriving while no model is open (respectively, a terminator when no chain
is open in the current model) dereferences the absent current
model/chain, raising an unhandled `AttributeError`; at load level the
whole load aborts with that error rather than absorbing the marker. -/
theorem c10_marker_before_model (ld : Loader) (l : Str) :
    (ld.pdb.current_model = none →
      ((str ("ENDMDL")).isPrefixOf l = true ∨ (str ("END")).isPrefixOf l = true) →
      load_line ld l = .error .attributeError) ∧
    (ld.pdb.current_model = none →
      (str ("TER")).isPrefixOf l = true →
      (pySplitWs l).head? = some (str ("TER")) →
      load_line ld l = .error .attributeError) ∧
    (∀ midx m, ld.pdb.current_model = some midx → ld.pdb.models.get? midx = some m →
      m.current_chain = none →
      (str ("TER")).isPrefixOf l = true →
      (pySplitWs l).head? = some (str ("TER")) →
      load_line ld l = .error .attributeError) ∧
    (ld.pdb.current_model = none →
      (((str ("ENDMDL")).isPrefixOf l = true ∨ (str ("END")).isPrefixOf l = true) ∨
        ((str ("TER")).isPrefixOf l = true ∧ (pySplitWs l).head? = some (str ("TER")))) →
      ∀ rest, load_lines ld (l :: rest) 0 [] = .error .attributeError) := by
  have A1 : ld.pdb.current_model = none →
      ((str ("ENDMDL")).isPrefixOf l = true ∨ (str ("END")).isPrefixOf l = true) →
      load_line ld l = .error .attributeError := by
    intro hm hpre
    have h3 : (str ("END")).isPrefixOf l = true := by
      rcases hpre with h6 | h3
      · obtain ⟨t, rfl⟩ := isPrefixOf_ex h6
        simp [str, List.isPrefixOf]
      · exact h3
    obtain ⟨t, rfl⟩ := isPrefixOf_ex h3
    by_cases h6 : (List.isPrefixOf ['M', 'D', 'L'] t = true)
    · simp only [load_line, str, String.toList, List.isPrefixOf, List.cons_append,
        List.nil_append, Bool.and_eq_true, beq_iff_eq]
      simp [h6, hm]
    · simp only [load_line, str, String.toList, List.isPrefixOf, List.cons_append,
        List.nil_append, Bool.and_eq_true, beq_iff_eq]
      simp only [Bool.not_eq_true] at h6
      simp [h6, hm]
  have A2 : ld.pdb.current_model = none →
      (str ("TER")).isPrefixOf l = true →
      (pySplitWs l).head? = some (str ("TER")) →
      load_line ld l = .error .attributeError := by
    intro hm hpre hsp
    obtain ⟨t, rfl⟩ := isPrefixOf_ex hpre
    simp only [str, String.toList, List.cons_append, List.nil_append] at hsp
    simp only [load_line, str, String.toList, List.isPrefixOf, List.cons_append,
      List.nil_append, Bool.and_eq_true, beq_iff_eq]
    simp [hsp, hm]
  have A3 : ∀ midx m, ld.pdb.current_model = some midx → ld.pdb.models.get? midx = some m →
      m.current_chain = none →
      (str ("TER")).isPrefixOf l = true →
      (pySplitWs l).head? = some (str ("TER")) →
      load_line ld l = .error .attributeError := by
    intro midx m hm hget hcc hpre hsp
    simp only [List.get?_eq_getElem?] at hget
    obtain ⟨t, rfl⟩ := isPrefixOf_ex hpre
    simp only [str, String.toList, List.cons_append, List.nil_append] at hsp
    simp only [load_line, str, String.toList, List.isPrefixOf, List.cons_append,
      List.nil_append, Bool.and_eq_true, beq_iff_eq]
    simp [hsp, hm, hget, hcc]
  refine ⟨A1, A2, A3, ?_⟩
  intro hm hpre rest
  have hline : load_line ld l = .error .attributeError := by
    rcases hpre with h | h
    · exact A1 hm h
    · exact A2 hm h.1 h.2
  simp [load_lines, hline, bind, Except.bind]

/-- C9 (amended): a chain-terminator line is acted upon (current chain
marked terminated and finalized, residue-numbering scope reset) exactly
when the line's first whitespace-delimited token is the keyword `TER` —
trailing tokens do not disqualify it; a line that merely begins with the
letters `TER` as part of a longer first token is ignored entirely. -/
theorem c9_ter_token_rule (ld : Loader) (l : Str)
    (hp : (str ("TER")).isPrefixOf l = true) :
    ((pySplitWs l).head? ≠ some (str ("TER")) → load_line ld l = .ok (ld, false, [])) ∧
    (∀ midx m cidx c c2,
      (pySplitWs l).head? = some (str ("TER")) →
      ld.pdb.current_model = some midx → ld.pdb.models.get? midx = some m →
      m.current_chain = some cidx → m.chains.get? cidx = some c →
      Chain.add_ter_record c = .ok c2 →
      c2.has_ter_record = true ∧
      load_line ld l = .ok (Loader.mk
        (PdbStructure.reset_residue_numbers
          { ld.pdb with models := listSet ld.pdb.models midx ({ m with chains := listSet m.chains cidx c2 }) })
        ld.new_model_state, false, [])) := by
  obtain ⟨t, rfl⟩ := isPrefixOf_ex hp
  constructor
  · intro hsp
    simp only [str, String.toList, List.cons_append, List.nil_append] at hsp
    simp only [load_line, str, String.toList, List.isPrefixOf, List.cons_append,
      List.nil_append, Bool.and_eq_true, beq_iff_eq]
    simp [hsp]
  · intro midx m cidx c c2 hsp hm hget hcc hgetc hter
    simp only [str, String.toList, List.cons_append, List.nil_append] at hsp
    simp only [List.get?_eq_getElem?] at hget hgetc
    refine ⟨add_ter_record_has_ter hter, ?_⟩
    simp only [load_line, str, String.toList, List.isPrefixOf, List.cons_append,
      List.nil_append, Bool.and_eq_true, beq_iff_eq]
    simp [hsp, hm, hget, hcc, hgetc, hter, bind, Except.bind]
    rfl

/-- C1 (amended): the atom- and residue-number resolver state is reset to
its initial state (counter 1, mode unlocked) at the start of load and on
every explicit model-start record, and the residue state additionally at
every chain-terminator record (which leaves the atom state untouched);
but a model opened implicitly by a coordinate record following an
end-of-model marker performs no reset — processing such a record is the
same as first adding the new model (an operation that leaves all four
resolver fields unchanged) and then handling the record normally. -/
theorem c1_reset_points (b : Bool) (ld : Loader) (l : Str) (mm : Model) :
    ((((PdbStructure.init b).reset_atom_numbers).reset_residue_numbers).atom_num_nondec_mode = none ∧
     (((PdbStructure.init b).reset_atom_numbers).reset_residue_numbers).next_atom_number = 1 ∧
     (((PdbStructure.init b).reset_atom_numbers).reset_residue_numbers).residue_num_nondec_mode = none ∧
     (((PdbStructure.init b).reset_atom_numbers).reset_residue_numbers).next_residue_number = 1) ∧
    ((str ("MODEL")).isPrefixOf l = true →
      ∃ p', load_line ld l = .ok (Loader.mk p' false, false, []) ∧
        p'.atom_num_nondec_mode = none ∧ p'.next_atom_number = 1 ∧
        p'.residue_num_nondec_mode = none ∧ p'.next_residue_number = 1) ∧
    (∀ midx m cidx c c2,
      (str ("TER")).isPrefixOf l = true →
      (pySplitWs l).head? = some (str ("TER")) →
      ld.pdb.current_model = some midx → ld.pdb.models.get? midx = some m →
      m.current_chain = some cidx → m.chains.get? cidx = some c →
      Chain.add_ter_record c = .ok c2 →
      ∃ p', load_line ld l = .ok (Loader.mk p' ld.new_model_state, false, []) ∧
        p'.residue_num_nondec_mode = none ∧ p'.next_residue_number = 1 ∧
        p'.atom_num_nondec_mode = ld.pdb.atom_num_nondec_mode ∧
        p'.next_atom_number = ld.pdb.next_atom_number) ∧
    ((((str ("ATOM  ")).isPrefixOf l = true) ∨ ((str ("HETATM")).isPrefixOf l = true)) →
      ld.new_model_state = true → ld.pdb.currentModel = some mm →
      load_line ld l
        = load_line (Loader.mk (ld.pdb.add_model (Model.init (mm.number + 1))) false) l) ∧
    ((ld.pdb.add_model mm).atom_num_nondec_mode = ld.pdb.atom_num_nondec_mode ∧
     (ld.pdb.add_model mm).next_atom_number = ld.pdb.next_atom_number ∧
     (ld.pdb.add_model mm).residue_num_nondec_mode = ld.pdb.residue_num_nondec_mode ∧
     (ld.pdb.add_model mm).next_residue_number = ld.pdb.next_residue_number) := by
  refine ⟨⟨rfl, rfl, rfl, rfl⟩, ?_, ?_, ?_, ⟨rfl, rfl, rfl, rfl⟩⟩
  · intro h
    obtain ⟨t, rfl⟩ := isPrefixOf_ex h
    simp only [load_line, str, String.toList, List.isPrefixOf, List.cons_append,
      List.nil_append, Bool.and_eq_true, beq_iff_eq]
    refine ⟨((ld.pdb.add_model (Model.init (match ld.pdb.currentModel with | none => 0 | some m => m.number + 1))).reset_atom_numbers).reset_residue_numbers, ?_, rfl, rfl, rfl, rfl⟩
    simp
  · intro midx m cidx c c2 hpre hsp hm hget hcc hgetc hter
    obtain ⟨t, rfl⟩ := isPrefixOf_ex hpre
    simp only [str, String.toList, List.cons_append, List.nil_append] at hsp
    simp only [List.get?_eq_getElem?] at hget hgetc
    refine ⟨PdbStructure.reset_residue_numbers { ld.pdb with models := listSet ld.pdb.models midx ({ m with chains := listSet m.chains cidx c2 }) }, ?_, rfl, rfl, rfl, rfl⟩
    simp only [load_line, str, String.toList, List.isPrefixOf, List.cons_append,
      List.nil_append, Bool.and_eq_true, beq_iff_eq]
    simp [hsp, hm, hget, hcc, hgetc, hter, bind, Except.bind]
    rfl
  · intro h hstate hcm
    simp only [load_line]
    rw [if_pos h, if_pos h]
    simp [hstate, hcm]

/-- C6 (amended): when a record carries an atom name already present in
the open residue: if its alternate-location indicator is not yet present
on the existing atom, its location is merged into that atom's location
map and no new Atom is appended (the atom list and name table are
unchanged apart from the merged map); if the indicator is already present,
the record is NOT dropped — it is appended to the residue as an
additional Atom object.  No diagnostic is emitted in either case. -/
theorem c6_duplicate_atom (r : Residue) (a : Atom) (i : Nat) (old : Atom) (la : AtomLocation)
    (hal : a.locations = [(a.default_location_id, la)])
    (hli : la.alternate_location_indicator = a.default_location_id)
    (hnum : a.residue_number = r.number) (hic : a.insertion_code = r.insertion_code)
    (hfound : dget? r.atoms_by_name a.name_with_spaces = some i)
    (hold : r.atoms.get? i = some old) :
    (dcontains old.locations a.default_location_id = false →
      ∃ r2, Residue.add_atom r a = .ok (r2, []) ∧
        r2.atoms.length = r.atoms.length ∧
        r2.atoms.get? i = some { old with locations := dset old.locations a.default_location_id la } ∧
        r2.atoms_by_name = r.atoms_by_name) ∧
    (dcontains old.locations a.default_location_id = true →
      ∃ r2, Residue.add_atom r a = .ok (r2, []) ∧
        r2.atoms.length = r.atoms.length + 1) := by
  have hind : a.get_alternate_location_indicator = .ok a.default_location_id := by
    simp [Atom.get_alternate_location_indicator, hal, dget?, hli]
  have hold2 : r.atoms[i]? = some old := by
    simpa [List.get?_eq_getElem?] using hold
  constructor
  · intro hdup
    by_cases hLoc : dcontains r.locations a.default_location_id
    · refine ⟨{ r with atoms := listSet r.atoms i ({ old with locations := dset old.locations a.default_location_id la }) }, ?_, ?_, ?_, ?_⟩
      · simp [Residue.add_atom, hind, bind, Except.bind, hnum, hic, hfound, hold2, hdup, hLoc, hal,
          pure, Except.pure]
      · simp [listSet_length]
      · simpa using listSet_get?_self hold _
      · rfl
    · refine ⟨{ r with
          locations := dset r.locations a.default_location_id ⟨a.default_location_id, a.residue_name_with_spaces, none, none⟩,
          atoms := listSet r.atoms i ({ old with locations := dset old.locations a.default_location_id la }) }, ?_, ?_, ?_, ?_⟩
      · simp [Residue.add_atom, hind, bind, Except.bind, hnum, hic, hfound, hold2, hdup, hLoc, hal,
          pure, Except.pure]
      · simp [listSet_length]
      · simpa using listSet_get?_self hold _
      · rfl
  · intro hdup
    by_cases hLoc : dcontains r.locations a.default_location_id
    · refine ⟨Residue.appendAtom r a, ?_, ?_⟩
      · simp [Residue.add_atom, hind, bind, Except.bind, hnum, hic, hfound, hold2, hdup, hLoc,
          pure, Except.pure]
      · simp [Residue.appendAtom]
    · refine ⟨Residue.appendAtom { r with
          locations := dset r.locations a.default_location_id ⟨a.default_location_id, a.residue_name_with_spaces, none, none⟩ } a, ?_, ?_⟩
      · simp [Residue.add_atom, hind, bind, Except.bind, hnum, hic, hfound, hold2, hdup, hLoc,
          pure, Except.pure]
      · simp [Residue.appendAtom]


/-- A minimal well-formed atom record (a singleton location whose id is
the default) for stating builder-level scenario theorems. -/
def mkTestAtom (nws rnws : Str) (num : Int) (icode ind cid : Char) : Atom :=
  { is_first_atom_in_chain := false
    is_final_atom_in_chain := false
    is_first_residue_in_chain := false
    is_final_residue_in_chain := false
    record_name := str ("ATOM")
    serial_number := 1
    name_with_spaces := nws
    name := pyStrip nws
    residue_name_with_spaces := rnws
    residue_name := pyStrip rnws
    chain_id := cid
    residue_number := num
    insertion_code := icode
    locations := [(ind, { alternate_location_indicator := ind
                          position := (str ("0.000"), str ("0.000"), str ("0.000"))
                          occupancy := str ("1.00")
                          temperature_factor := str ("0.00")
                          residue_name := rnws })]
    default_location_id := ind
    segment_id := []
    element_symbol := []
    formal_charge := none
    element := none
    model_number := none }

/-- Feed two coordinate-record atoms consecutively to a fresh chain,
collecting the warnings of both calls. -/
def addTwo (cid : Char) (a1 a2 : Atom) : Except PyErr (Chain × List Warn) := do
  let r1 ← Chain.add_atom (Chain.init cid) a1
  let r2 ← Chain.add_atom r1.1 a2
  pure (r2.1, r1.2 ++ r2.2)

/-- The residue produced by feeding the first scenario atom
(name ` N  `, residue name `rnws1`, indicator `ind1`) to a fresh chain. -/
def c5Residue1 (rnws1 : Str) (num : Int) (icode ind1 cid : Char) : Residue :=
  { primary_location_id := ind1
    segment_id := []
    locations := [(ind1, { alternate_location_indicator := ind1
                           residue_name_with_spaces := rnws1
                           name_with_spaces := some rnws1
                           name := some (pyStrip rnws1) })]
    number := num
    insertion_code := icode
    atoms := [mkTestAtom (str (" N  ")) rnws1 num icode ind1 cid]
    atoms_by_name := [(pyStrip (str (" N  ")), 0), (str (" N  "), 0)]
    is_first_in_chain := true
    is_final_in_chain := false
    current_atom := some 0 }

/-- The chain state after the first scenario atom. -/
def c5Chain1 (rnws1 : Str) (num : Int) (icode ind1 cid : Char) : Chain :=
  { chain_id := cid
    residues := [c5Residue1 rnws1 num icode ind1 cid]
    has_ter_record := false
    current_residue := some 0
    residues_by_num_icode := [(intToStr num ++ [icode], 0)]
    residues_by_number := [(num, 0)] }

/-- The second, forced-open residue of the blank-indicator case. -/
def c5ResidueBlank (rnws2 : Str) (num : Int) (icode cid : Char) : Residue :=
  { primary_location_id := ' '
    segment_id := []
    locations := [(' ', { alternate_location_indicator := ' '
                          residue_name_with_spaces := rnws2
                          name_with_spaces := some rnws2
                          name := some (pyStrip rnws2) })]
    number := num
    insertion_code := icode
    atoms := [mkTestAtom (str (" CA ")) rnws2 num icode ' ' cid]
    atoms_by_name := [(pyStrip (str (" CA ")), 0), (str (" CA "), 0)]
    is_first_in_chain := false
    is_final_in_chain := false
    current_atom := some 0 }

theorem c5_first_add (rnws1 : Str) (num : Int) (icode ind1 cid : Char) :
    Chain.add_atom (Chain.init cid) (mkTestAtom (str (" N  ")) rnws1 num icode ind1 cid)
      = .ok (c5Chain1 rnws1 num icode ind1 cid, []) := by
  have hne : ¬ (pyStrip (str (" N  ")) = str (" N  ")) := by decide
  simp [hne, Chain.add_atom, Chain.init, Chain.add_residue, Chain.currentResidue, Residue.init,
    Residue.add_atom, Residue.appendAtom, Atom.get_alternate_location_indicator, mkTestAtom,
    c5Chain1, c5Residue1, dget?, dcontains, dset, listSet, bind, Except.bind, pure, Except.pure]

theorem c5_second_add_blank (rnws1 rnws2 : Str) (num : Int) (icode ind1 cid : Char)
    (hname : rnws2 ≠ rnws1) :
    Chain.add_atom (c5Chain1 rnws1 num icode ind1 cid)
        (mkTestAtom (str (" CA ")) rnws2 num icode ' ' cid)
      = .ok ({ c5Chain1 rnws1 num icode ind1 cid with
               residues := [c5Residue1 rnws1 num icode ind1 cid, c5ResidueBlank rnws2 num icode cid]
               current_residue := some 1 }, [Warn.residueNameChange]) := by
  have hne : ¬ (pyStrip (str (" CA ")) = str (" CA ")) := by decide
  have hname2 : ¬ (rnws1 = rnws2) := fun h => hname h.symm
  simp [hne, hname2, Chain.add_atom, Chain.add_residue, Chain.currentResidue, Residue.init,
    Residue.add_atom, Residue.appendAtom, Residue.get_name_with_spaces,
    Atom.get_alternate_location_indicator, mkTestAtom,
    c5Chain1, c5Residue1, c5ResidueBlank, dget?, dcontains, dset, listSet, bind, Except.bind,
    pure, Except.pure]


/-- The merged residue of the point-mutation case (distinct indicators):
the atom is appended and the name table gains the second name variant
under `ind2`. -/
def c5ResidueMut (rnws1 rnws2 : Str) (num : Int) (icode ind1 ind2 cid : Char) : Residue :=
  { primary_location_id := ind1
    segment_id := []
    locations := [(ind1, { alternate_location_indicator := ind1
                           residue_name_with_spaces := rnws1
                           name_with_spaces := some rnws1
                           name := some (pyStrip rnws1) }),
                  (ind2, { alternate_location_indicator := ind2
                           residue_name_with_spaces := rnws2
                           name_with_spaces := none
                           name := none })]
    number := num
    insertion_code := icode
    atoms := [mkTestAtom (str (" N  ")) rnws1 num icode ind1 cid,
              mkTestAtom (str (" CA ")) rnws2 num icode ind2 cid]
    atoms_by_name := [(pyStrip (str (" N  ")), 0), (str (" N  "), 0),
                      (pyStrip (str (" CA ")), 1), (str (" CA "), 1)]
    is_first_in_chain := true
    is_final_in_chain := false
    current_atom := some 1 }

/-- The merged residue when the second indicator repeats the first:
the atom is appended but no new name-table entry is created. -/
def c5ResidueMutSame (rnws1 rnws2 : Str) (num : Int) (icode ind1 cid : Char) : Residue :=
  { primary_location_id := ind1
    segment_id := []
    locations := [(ind1, { alternate_location_indicator := ind1
                           residue_name_with_spaces := rnws1
                           name_with_spaces := some rnws1
                           name := some (pyStrip rnws1) })]
    number := num
    insertion_code := icode
    atoms := [mkTestAtom (str (" N  ")) rnws1 num icode ind1 cid,
              mkTestAtom (str (" CA ")) rnws2 num icode ind1 cid]
    atoms_by_name := [(pyStrip (str (" N  ")), 0), (str (" N  "), 0),
                      (pyStrip (str (" CA ")), 1), (str (" CA "), 1)]
    is_first_in_chain := true
    is_final_in_chain := false
    current_atom := some 1 }

theorem c5_second_add_mut (rnws1 rnws2 : Str) (num : Int) (icode ind1 ind2 cid : Char)
    (hname : rnws2 ≠ rnws1) (hnb : ind2 ≠ ' ') (hii : ind2 ≠ ind1) :
    Chain.add_atom (c5Chain1 rnws1 num icode ind1 cid)
        (mkTestAtom (str (" CA ")) rnws2 num icode ind2 cid)
      = .ok ({ c5Chain1 rnws1 num icode ind1 cid with
               residues := [c5ResidueMut rnws1 rnws2 num icode ind1 ind2 cid] }, []) := by
  have hne : ¬ (pyStrip (str (" CA ")) = str (" CA ")) := by decide
  have hname2 : ¬ (rnws1 = rnws2) := fun h => hname h.symm
  have hii2 : ¬ (ind1 = ind2) := fun h => hii h.symm
  have h3 : ¬ (pyStrip (str (" N  ")) = str (" CA ")) := by decide
  have h4 : ¬ ((str (" N  ")) = str (" CA ")) := by decide
  simp [hne, hname2, hnb, hii2, h3, h4, Chain.add_atom, Chain.add_residue, Chain.currentResidue,
    Residue.init, Residue.add_atom, Residue.appendAtom, Residue.get_name_with_spaces,
    Atom.get_alternate_location_indicator, mkTestAtom,
    c5Chain1, c5Residue1, c5ResidueMut, dget?, dcontains, dset, listSet, bind, Except.bind,
    pure, Except.pure]

theorem c5_second_add_mut_same (rnws1 rnws2 : Str) (num : Int) (icode ind1 cid : Char)
    (hname : rnws2 ≠ rnws1) (hnb : ind1 ≠ ' ') :
    Chain.add_atom (c5Chain1 rnws1 num icode ind1 cid)
        (mkTestAtom (str (" CA ")) rnws2 num icode ind1 cid)
      = .ok ({ c5Chain1 rnws1 num icode ind1 cid with
               residues := [c5ResidueMutSame rnws1 rnws2 num icode ind1 cid] }, []) := by
  have hne : ¬ (pyStrip (str (" CA ")) = str (" CA ")) := by decide
  have hname2 : ¬ (rnws1 = rnws2) := fun h => hname h.symm
  have h3 : ¬ (pyStrip (str (" N  ")) = str (" CA ")) := by decide
  have h4 : ¬ ((str (" N  ")) = str (" CA ")) := by decide
  simp [hne, hname2, hnb, h3, h4, Chain.add_atom, Chain.add_residue, Chain.currentResidue,
    Residue.init, Residue.add_atom, Residue.appendAtom, Residue.get_name_with_spaces,
    Atom.get_alternate_location_indicator, mkTestAtom,
    c5Chain1, c5Residue1, c5ResidueMutSame, dget?, dcontains, dset, listSet, bind, Except.bind,
    pure, Except.pure]

/-- C5 (amended): feeding two consecutive coordinate records with equal
residue number and insertion code but different residue names to a fresh
chain: with a blank alternate-location indicator on the second record, a
diagnostic is emitted and a second, distinct residue is opened; with a
non-blank indicator, no diagnostic is emitted and the atom is merged into
the single existing residue, whose per-location name table carries both
residue-name variants exactly when the second indicator is not already
present in it (in particular whenever the two indicators differ); when
the second record repeats the first record's indicator, the table keeps
only the first name. -/
theorem c5_residue_name_change (rnws1 rnws2 : Str) (num : Int)
    (icode ind1 ind2 cid : Char) (hname : rnws2 ≠ rnws1) :
    (ind2 = ' ' →
      ∃ c2, addTwo cid (mkTestAtom (str (" N  ")) rnws1 num icode ind1 cid)
                       (mkTestAtom (str (" CA ")) rnws2 num icode ind2 cid)
          = .ok (c2, [Warn.residueNameChange]) ∧ c2.residues.length = 2) ∧
    (ind2 ≠ ' ' →
      ∃ c2 res, addTwo cid (mkTestAtom (str (" N  ")) rnws1 num icode ind1 cid)
                           (mkTestAtom (str (" CA ")) rnws2 num icode ind2 cid)
          = .ok (c2, []) ∧ c2.residues = [res] ∧
        (ind2 ≠ ind1 →
          (dget? res.locations ind1).map (fun rl => rl.residue_name_with_spaces) = some rnws1 ∧
          (dget? res.locations ind2).map (fun rl => rl.residue_name_with_spaces) = some rnws2) ∧
        (ind2 = ind1 →
          res.locations = [(ind1, { alternate_location_indicator := ind1
                                    residue_name_with_spaces := rnws1
                                    name_with_spaces := some rnws1
                                    name := some (pyStrip rnws1) })])) := by
  constructor
  · intro hblank
    subst hblank
    refine ⟨{ c5Chain1 rnws1 num icode ind1 cid with
              residues := [c5Residue1 rnws1 num icode ind1 cid, c5ResidueBlank rnws2 num icode cid]
              current_residue := some 1 }, ?_, rfl⟩
    simp [addTwo, c5_first_add, c5_second_add_blank rnws1 rnws2 num icode ind1 cid hname,
      bind, Except.bind, pure, Except.pure]
  · intro hnb
    by_cases hii : ind2 = ind1
    · subst hii
      refine ⟨{ c5Chain1 rnws1 num icode ind2 cid with
                residues := [c5ResidueMutSame rnws1 rnws2 num icode ind2 cid] },
              c5ResidueMutSame rnws1 rnws2 num icode ind2 cid, ?_, rfl, ?_, ?_⟩
      · simp [addTwo, c5_first_add, c5_second_add_mut_same rnws1 rnws2 num icode ind2 cid hname hnb,
          bind, Except.bind, pure, Except.pure]
      · intro h
        exact absurd rfl h
      · intro h
        rfl
    · refine ⟨{ c5Chain1 rnws1 num icode ind1 cid with
                residues := [c5ResidueMut rnws1 rnws2 num icode ind1 ind2 cid] },
              c5ResidueMut rnws1 rnws2 num icode ind1 ind2 cid, ?_, rfl, ?_, ?_⟩
      · simp [addTwo, c5_first_add, c5_second_add_mut rnws1 rnws2 num icode ind1 ind2 cid hname hnb hii,
          bind, Except.bind, pure, Except.pure]
      · intro h
        have hii2 : ¬ (ind1 = ind2) := fun hx => hii hx.symm
        constructor
        · simp [c5ResidueMut, dget?]
        · simp [c5ResidueMut, dget?, hii2]
      · intro h
        exact absurd h hii


/-! ### Witnesses: concrete instantiations of the hypotheses-bearing
claim theorems -/

/-- A residue as built by `Residue.__init__` for witness states. -/
def resShared : Residue := Residue.init (str ("ALA")) 1 ' ' ' ' []

/-- `resShared` as stored by `Chain._add_residue` into an empty chain. -/
def resShared2 : Residue := { resShared with is_first_in_chain := true }

def chainShared : Chain := (Chain.init 'A').add_residue resShared

def modelShared : Model :=
  { Model.init 0 with chains := [chainShared], current_chain := some 0 }

/-- A structure with one open model, chain and residue, residue counter 42. -/
def pOpenShared : PdbStructure :=
  { PdbStructure.init true with
    models := [modelShared]
    current_model := some 0
    next_residue_number := 42 }

def ldShared : Loader := Loader.mk pOpenShared false

/-- `ldShared` with the pending-new-model flag set (after `ENDMDL`). -/
def ldNewModel : Loader := Loader.mk pOpenShared true

/-- `chainShared` after `Chain._add_ter_record`. -/
def resSharedFinal : Residue :=
  { resShared with
    is_first_in_chain := true
    is_final_in_chain := true }

def chainSharedTer : Chain :=
  { chainShared with
    has_ter_record := true
    residues := [resSharedFinal] }

/-- A structure holding one model that has no chain open yet. -/
def pModelNoChain : PdbStructure :=
  { PdbStructure.init true with
    models := [Model.init 0]
    current_model := some 0 }

/-- The structure with the residue counter already past 9999. -/
def pHighResidue : PdbStructure :=
  { PdbStructure.init true with next_residue_number := 10000 }

theorem c4_witness :
    overflow_residue_check (str ("****")) (PdbStructure.init true)
      (AtomNames.mk (str (" N  ")) (str ("GLY"))) = .ok 1 ∧
    overflow_residue_check (str ("****")) pOpenShared
      (AtomNames.mk (str (" N  ")) (str ("GLY"))) = .ok 42 ∧
    overflow_residue_check (str ("****")) pOpenShared
      (AtomNames.mk (str (" N  ")) (str ("ALA"))) = .ok 1 := by
  refine ⟨?_, ?_, ?_⟩
  · exact (c4_sequential_guess_residue (str ("****")) (PdbStructure.init true)
      (AtomNames.mk (str (" N  ")) (str ("GLY")))).1 (by decide)
  · exact ((c4_sequential_guess_residue (str ("****")) pOpenShared
      (AtomNames.mk (str (" N  ")) (str ("GLY")))).2 resShared2 (str ("ALA"))
        (by decide) (by decide)).1 (by decide)
  · exact ((c4_sequential_guess_residue (str ("****")) pOpenShared
      (AtomNames.mk (str (" N  ")) (str ("ALA")))).2 resShared2 (str ("ALA"))
        (by decide) (by decide)).2.2 rfl (by decide)

theorem c7_witness :
    applyAtomMode .chimera ('A' :: str ("000")) (PdbStructure.init true) = .ok (10 * 10 ^ 4 + 0) ∧
    applyResidueMode .chimera ('A' :: str ("000")) (PdbStructure.init true)
      (AtomNames.mk (str (" N  ")) (str ("ALA"))) = .ok (10 * 10 ^ 3 + 0) ∧
    read_residue_number (str ("A000")) (some pHighResidue)
      (AtomNames.mk (str (" N  ")) (str ("ALA")))
      = .ok (10000, some { pHighResidue with residue_num_nondec_mode := some NondecMode.chimera }, []) := by
  have h1 := c7_hybrid_decoder 'A' (str ("000")) (PdbStructure.init true)
    (AtomNames.mk (str (" N  ")) (str ("ALA"))) 10 0 (by decide) (by decide)
  have h2 := c7_hybrid_decoder 'A' (str ("000")) pHighResidue
    (AtomNames.mk (str (" N  ")) (str ("ALA"))) 10 0 (by decide) (by decide)
  exact ⟨h1.1, h1.2.1, h2.2.2 rfl (by decide)⟩

theorem c10_witness :
    load_line (Loader.mk (PdbStructure.init true) false) (str ("ENDMDL")) = .error .attributeError ∧
    load_line (Loader.mk (PdbStructure.init true) false) (str ("END")) = .error .attributeError ∧
    load_line (Loader.mk (PdbStructure.init true) false) (str ("TER")) = .error .attributeError ∧
    load_line (Loader.mk pModelNoChain false) (str ("TER")) = .error .attributeError ∧
    load_lines (Loader.mk (PdbStructure.init true) false) [str ("ENDMDL")] 0 [] = .error .attributeError := by
  refine ⟨?_, ?_, ?_, ?_, ?_⟩
  · exact (c10_marker_before_model (Loader.mk (PdbStructure.init true) false) (str ("ENDMDL"))).1
      rfl (Or.inl (by decide))
  · exact (c10_marker_before_model (Loader.mk (PdbStructure.init true) false) (str ("END"))).1
      rfl (Or.inr (by decide))
  · exact (c10_marker_before_model (Loader.mk (PdbStructure.init true) false) (str ("TER"))).2.1
      rfl (by decide) (by decide)
  · exact (c10_marker_before_model (Loader.mk pModelNoChain false)
      (str ("TER"))).2.2.1 0 (Model.init 0) rfl (by decide) rfl (by decide) (by decide)
  · exact (c10_marker_before_model (Loader.mk (PdbStructure.init true) false) (str ("ENDMDL"))).2.2.2
      rfl (Or.inl (Or.inl (by decide))) []

theorem c9_witness :
    load_line ldShared (str ("TERX")) = .ok (ldShared, false, []) ∧
    (chainSharedTer.has_ter_record = true ∧
     load_line ldShared terLineWithFields = .ok (Loader.mk
       (PdbStructure.reset_residue_numbers
         { ldShared.pdb with models := listSet ldShared.pdb.models 0 ({ modelShared with chains := listSet modelShared.chains 0 chainSharedTer }) })
       ldShared.new_model_state, false, [])) := by
  refine ⟨?_, ?_⟩
  · exact (c9_ter_token_rule ldShared (str ("TERX")) (by decide)).1 (by decide)
  · exact (c9_ter_token_rule ldShared terLineWithFields (by decide)).2 0 modelShared 0
      chainShared chainSharedTer (by decide) rfl (by decide) rfl (by decide) (by decide)

theorem c1_witness :
    (∃ p', load_line ldShared (str ("MODEL     9")) = .ok (Loader.mk p' false, false, []) ∧
      p'.atom_num_nondec_mode = none ∧ p'.next_atom_number = 1 ∧
      p'.residue_num_nondec_mode = none ∧ p'.next_residue_number = 1) ∧
    load_line ldNewModel oneAtomLine
      = load_line (Loader.mk (ldNewModel.pdb.add_model (Model.init (modelShared.number + 1))) false) oneAtomLine ∧
    (∃ p', load_line ldShared terLineWithFields = .ok (Loader.mk p' ldShared.new_model_state, false, []) ∧
      p'.residue_num_nondec_mode = none ∧ p'.next_residue_number = 1 ∧
      p'.atom_num_nondec_mode = ldShared.pdb.atom_num_nondec_mode ∧
      p'.next_atom_number = ldShared.pdb.next_atom_number) := by
  refine ⟨?_, ?_, ?_⟩
  · exact (c1_reset_points true ldShared (str ("MODEL     9")) modelShared).2.1 (by decide)
  · exact (c1_reset_points true ldNewModel oneAtomLine modelShared).2.2.2.1
      (Or.inl (by decide)) rfl (by decide)
  · exact (c1_reset_points true ldShared terLineWithFields modelShared).2.2.1 0 modelShared 0
      chainShared chainSharedTer (by decide) (by decide) rfl (by decide) rfl (by decide) (by decide)

/-- The atom whose alternate-location indicator is `B`. -/
def atomIndB : Atom := mkTestAtom (str (" N  ")) (str ("ALA")) 1 ' ' 'B' 'A'

/-- The same-named atom whose indicator is `A`. -/
def atomIndA : Atom := mkTestAtom (str (" N  ")) (str ("ALA")) 1 ' ' 'A' 'A'

/-- `atomIndA`'s single location value. -/
def locIndA : AtomLocation :=
  { alternate_location_indicator := 'A'
    position := (str ("0.000"), str ("0.000"), str ("0.000"))
    occupancy := str ("1.00")
    temperature_factor := str ("0.00")
    residue_name := str ("ALA") }

/-- `atomIndB`'s single location value. -/
def locIndB : AtomLocation :=
  { alternate_location_indicator := 'B'
    position := (str ("0.000"), str ("0.000"), str ("0.000"))
    occupancy := str ("1.00")
    temperature_factor := str ("0.00")
    residue_name := str ("ALA") }

/-- A residue already holding `atomIndB`. -/
def resHoldingB : Residue := (Residue.init (str ("ALA")) 1 ' ' 'B' []).appendAtom atomIndB

theorem c6_witness :
    (∃ r2, Residue.add_atom resHoldingB atomIndA = .ok (r2, []) ∧
      r2.atoms.length = resHoldingB.atoms.length ∧
      r2.atoms.get? 0 = some { atomIndB with locations := dset atomIndB.locations atomIndA.default_location_id locIndA } ∧
      r2.atoms_by_name = resHoldingB.atoms_by_name) ∧
    (∃ r2, Residue.add_atom resHoldingB atomIndB = .ok (r2, []) ∧
      r2.atoms.length = resHoldingB.atoms.length + 1) := by
  refine ⟨?_, ?_⟩
  · exact (c6_duplicate_atom resHoldingB atomIndA 0 atomIndB locIndA rfl rfl (by decide)
      (by decide) (by decide) (by decide)).1 (by decide)
  · exact (c6_duplicate_atom resHoldingB atomIndB 0 atomIndB locIndB rfl rfl (by decide)
      (by decide) (by decide) (by decide)).2 (by decide)

theorem c5_witness :
    (∃ c2, addTwo 'A' (mkTestAtom (str (" N  ")) (str ("ALA")) 1 ' ' 'Q' 'A')
                      (mkTestAtom (str (" CA ")) (str ("GLY")) 1 ' ' ' ' 'A')
        = .ok (c2, [Warn.residueNameChange]) ∧ c2.residues.length = 2) ∧
    (∃ c2 res, addTwo 'A' (mkTestAtom (str (" N  ")) (str ("ALA")) 1 ' ' ' ' 'A')
                          (mkTestAtom (str (" CA ")) (str ("GLY")) 1 ' ' 'B' 'A')
        = .ok (c2, []) ∧ c2.residues = [res] ∧
      (('B' : Char) ≠ ' ' →
        (dget? res.locations ' ').map (fun rl => rl.residue_name_with_spaces) = some (str ("ALA")) ∧
        (dget? res.locations 'B').map (fun rl => rl.residue_name_with_spaces) = some (str ("GLY"))) ∧
      (('B' : Char) = ' ' →
        res.locations = [(' ', { alternate_location_indicator := ' '
                                 residue_name_with_spaces := str ("ALA")
                                 name_with_spaces := some (str ("ALA"))
                                 name := some (pyStrip (str ("ALA"))) })])) := by
  refine ⟨?_, ?_⟩
  · exact (c5_residue_name_change (str ("ALA")) (str ("GLY")) 1 ' ' 'Q' ' ' 'A' (by decide)).1 rfl
  · exact (c5_residue_name_change (str ("ALA")) (str ("GLY")) 1 ' ' ' ' 'B' 'A' (by decide)).2 (by decide)


end PdbSpec
